import Mathlib

/-!
Shallow embedding of the wellness-engine supplement prescription pipeline
(src/lib/engine of the repository) in Lean 4, together with theorems
settling the specification claims.

Modelling conventions:
* TypeScript numbers are modelled as rationals (`ℚ`); `Math.round x` is
  `⌊x + 1/2⌋`, `Math.ceil` is `Int.ceil`, one-decimal rounding is
  `jsRound (x*10) / 10`.
* TypeScript string records (`Record<string, number>`) are association
  lists looked up by first key match; the JS truthiness of `m[k]`
  (undefined or 0 is falsy) is modelled explicitly.
* A thrown exception that is not caught (indexing `BUDGET_TIER_DEFINITIONS`
  with an unknown tier) makes the orchestrator return `none`; every
  normally returned result is `some`.
* The generation timestamp `new Date().toISOString()` is an explicit
  `now : String` parameter of the orchestrator.
-/

/-- JS `Math.round`: round half toward positive infinity. -/
def jsRound (q : ℚ) : ℤ := ⌊q + 1/2⌋

/-- Rounding to one decimal, as `Math.round(x * 10) / 10`. -/
def round1 (q : ℚ) : ℚ := (jsRound (q * 10) : ℚ) / 10

/-- Check that `pat` starts the character list `l`. -/
def leadsWith : List Char → List Char → Bool
  | [], _ => true
  | _ :: _, [] => false
  | a :: as, b :: bs => a == b && leadsWith as bs

/-- Check that `pat` occurs contiguously inside `l`. -/
def hasSubList (pat : List Char) : List Char → Bool
  | [] => leadsWith pat []
  | c :: rest => leadsWith pat (c :: rest) || hasSubList pat rest

/-- JS `s.includes(pat)`: substring containment. -/
def strIncludes (s pat : String) : Bool := hasSubList pat.data s.data

/-- JS `toLowerCase`, realised per character so that it reduces in the
kernel (`lowerStr` recurses on byte positions and does not). -/
def lowerStr (s : String) : String := ⟨s.data.map Char.toLower⟩

/-- First-occurrence deduplication worker (`seen` holds emitted keys). -/
def dedupAux (seen : List String) : List String → List String
  | [] => []
  | x :: xs => if x ∈ seen then dedupAux seen xs else x :: dedupAux (x :: seen) xs

/-- JS `[...new Set(l)]`: keep the first occurrence of each element. -/
def dedupFirst (l : List String) : List String := dedupAux [] l

/-- JS `Array.prototype.join(sep)`. -/
def joinSep (sep : String) : List String → String
  | [] => ""
  | [x] => x
  | x :: y :: xs => x ++ sep ++ joinSep sep (y :: xs)

/-- Association-list lookup modelling a JS string-keyed record read. -/
def alookup (l : List (String × ℚ)) (k : String) : Option ℚ :=
  (l.find? (fun p => p.1 == k)).map (·.2)

/-- JS `m[k] || dflt` (an absent key and the value 0 are both falsy). -/
def lookupOr (m : List (String × ℚ)) (k : String) (dflt : ℚ) : ℚ :=
  match alookup m k with
  | some v => if v = 0 then dflt else v
  | none => dflt

/-! ## Data model (types.ts) -/

/-- DemographicData of types.ts. -/
structure DemographicData where
  age : ℚ
  gender : String
  weight : ℚ
  height : ℚ
  menstruationStatus : Option String := none
  menopauseStatus : Option String := none
  pregnancyIntention : Option String := none
  isPregnant : Option Bool := none
  dietPreference : Option String := none
  alcoholUse : Option String := none
  trainingFrequency : Option String := none
  deriving DecidableEq, Repr

/-- ClinicalFlags of types.ts. -/
structure ClinicalFlags where
  currentMedications : List String
  medicalConditions : List String
  labAbnormalities : Option (List String) := none
  symptomClusters : Option (List String) := none
  deriving DecidableEq, Repr

/-- GenerationInput of types.ts; budgetTier is kept as the raw string the
orchestrator receives (the TS type annotation is not enforced at runtime). -/
structure GenerationInput where
  demographics : DemographicData
  goal : String
  clinicalFlags : Option ClinicalFlags := none
  budgetTier : String
  symptomsRating : Option ℚ := none
  customNotes : Option String := none
  deriving DecidableEq, Repr

/-- SupplementStack entry of types.ts. -/
structure SupplementStack where
  supplementId : String
  supplementName : String
  dose : ℚ
  unit : String
  timing : String
  doseType : String
  reasoning : String
  deriving DecidableEq, Repr

/-- Severity levels of SafetyIssue. -/
inductive Severity where
  | CRITICAL | HIGH | MEDIUM | LOW
  deriving DecidableEq, Repr

/-- Action type of SafetyIssue. -/
inductive IssueType where
  | HARD_BLOCK | SOFT_WARN | ADJUST_DOSE
  deriving DecidableEq, Repr

/-- SafetyIssue of types.ts. -/
structure SafetyIssue where
  type : IssueType
  supplementName : String
  reason : String
  severity : Severity
  recommendation : String
  deriving DecidableEq, Repr

/-- PriorityScore of types.ts (score is the `Math.round`ed integer). -/
structure PriorityScore where
  supplementId : String
  supplementName : String
  score : ℤ
  rationale : String
  deriving DecidableEq, Repr

/-- Summary block of PrescriptionOutput. -/
structure SummaryOut where
  goal : String
  priority : List String
  pathwayFocus : List String
  generatedAt : String
  deriving DecidableEq, Repr

/-- Lifestyle block of PrescriptionOutput. -/
structure LifestyleOut where
  sleep : List String
  diet : List String
  training : List String
  stressReduction : List String
  deriving DecidableEq, Repr

/-- Red-flag entry of PrescriptionOutput. -/
structure RedFlag where
  severity : Severity
  message : String
  deriving DecidableEq, Repr

/-- Shopping-list entry of PrescriptionOutput. -/
structure ShoppingItem where
  supplementName : String
  quantity : ℤ
  unit : String
  estimatedCost : ℚ
  deriving DecidableEq, Repr

/-- PrescriptionOutput of types.ts (fields the engine actually produces;
`afternoonStack` is optional exactly as in the source). -/
structure PrescriptionOutput where
  summary : SummaryOut
  morningStack : List SupplementStack
  afternoonStack : Option (List SupplementStack)
  eveningStack : List SupplementStack
  lifestyle : LifestyleOut
  redFlags : List RedFlag
  shoppingList : List ShoppingItem
  warnings : List String
  deriving DecidableEq, Repr

/-- DosageModifier of types.ts. -/
structure DosageModifier where
  ageMultiplier : ℚ
  genderMultiplier : ℚ
  weightMultiplier : ℚ
  trainingLoadMultiplier : ℚ
  symptomMultiplier : ℚ
  goalMultiplier : ℚ
  budgetMultiplier : ℚ
  deriving DecidableEq, Repr

/-! ## goalNode.ts -/

/-- GoalType enumeration values. -/
def goalTypeValues : List String :=
  ["ENERGY_RECOVERY", "STRESS_SLEEP", "LONGEVITY", "ATHLETIC_PERFORMANCE",
   "METABOLIC_HEALTH", "IMMUNE_SUPPORT", "BRAIN_HEALTH", "JOINT_HEALTH"]

/-- GOAL_TO_PROTOCOL mapping (protocolId, label). -/
def GOAL_TO_PROTOCOL (goal : String) : Option (String × String) :=
  if goal = "ENERGY_RECOVERY" then some ("prot_001", "Energy & Recovery")
  else if goal = "STRESS_SLEEP" then some ("prot_002", "Stress & Sleep")
  else if goal = "LONGEVITY" then some ("prot_003", "Longevity & Prevention")
  else if goal = "ATHLETIC_PERFORMANCE" then some ("prot_004", "Athletic Performance")
  else if goal = "METABOLIC_HEALTH" then some ("prot_005", "Metabolic Health")
  else if goal = "IMMUNE_SUPPORT" then some ("prot_001", "Immune Support")
  else if goal = "BRAIN_HEALTH" then some ("prot_003", "Brain Health")
  else if goal = "JOINT_HEALTH" then some ("prot_001", "Joint Health")
  else none

/-- Result of selectGoal. -/
structure SelectedGoal where
  goal : String
  protocolExternalId : String
  label : String
  deriving DecidableEq, Repr

/-- selectGoal of goalNode.ts; throwing `Invalid goal` is modelled as `none`. -/
def selectGoal (goal : String) : Option SelectedGoal :=
  if goal ∈ goalTypeValues then
    match GOAL_TO_PROTOCOL goal with
    | some m => some ⟨goal, m.1, m.2⟩
    | none => none
  else none

/-! ## clinicalFlagsNode.ts -/

/-- Result record of processClinicalFlags. -/
structure ClinicalProcessing where
  autoAddSupplements : List String
  blockedSupplements : List String
  doseAdjustments : List (String × ℚ)
  warnings : List String
  deriving DecidableEq, Repr

/-- Write into a JS record: overwrite the key when present, append otherwise. -/
def setAdj (m : List (String × ℚ)) (k : String) (v : ℚ) : List (String × ℚ) :=
  if (m.find? (fun p => p.1 == k)).isSome then
    m.map (fun p => if p.1 == k then (k, v) else p)
  else m ++ [(k, v)]

/-- Medication loop body of processClinicalFlags (per lowered medication). -/
def processMedication (acc : ClinicalProcessing) (medication : String) : ClinicalProcessing :=
  let acc :=
    if strIncludes medication "statin" then
      { acc with
        autoAddSupplements := acc.autoAddSupplements ++ ["sup_007"],
        warnings := acc.warnings ++
          ["CoQ10 is depleted by statins. Added to support muscle health and prevent statin-induced myopathy."] }
    else acc
  if strIncludes medication "ssri" || strIncludes medication "sertraline" then
    { acc with
      blockedSupplements := acc.blockedSupplements ++ ["sup_009"],
      warnings := acc.warnings ++
        ["Rhodiola is blocked due to serotonin interaction risk with SSRIs."] }
  else acc

/-- Condition loop body of processClinicalFlags (per lowered condition). -/
def processCondition (acc : ClinicalProcessing) (condition : String) : ClinicalProcessing :=
  let acc :=
    if strIncludes condition "gerd" || strIncludes condition "reflux" then
      { acc with
        doseAdjustments := setAdj acc.doseAdjustments "sup_010" (1/2),
        warnings := acc.warnings ++
          ["Turmeric dose reduced to 50% due to GERD. May cause irritation at higher doses."] }
    else acc
  let acc :=
    if strIncludes condition "kidney" then
      { acc with
        blockedSupplements := acc.blockedSupplements ++ ["sup_002", "sup_005"],
        warnings := acc.warnings ++
          ["Magnesium and creatine are contraindicated in kidney disease."] }
    else acc
  let acc :=
    if strIncludes condition "liver" then
      { acc with
        blockedSupplements := acc.blockedSupplements ++ ["sup_011", "sup_012"],
        warnings := acc.warnings ++
          ["Berberine and resveratrol are metabolized by the liver and contraindicated in liver disease."] }
    else acc
  let acc :=
    if strIncludes condition "autoimmune" then
      { acc with
        doseAdjustments := setAdj acc.doseAdjustments "sup_006" (7/10),
        warnings := acc.warnings ++
          ["Ashwagandha dose reduced and should be monitored in autoimmune conditions."] }
    else acc
  if strIncludes condition "hypotension" || strIncludes condition "low blood" then
    { acc with
      doseAdjustments := setAdj (setAdj acc.doseAdjustments "sup_006" (1/2)) "sup_009" (1/2),
      warnings := acc.warnings ++
        ["Adaptogen doses reduced due to low blood pressure. Monitor symptoms."] }
  else acc

/-- Symptom loop body of processClinicalFlags (per lowered symptom). -/
def processSymptom (conditions : List String) (acc : ClinicalProcessing)
    (symptom : String) : ClinicalProcessing :=
  let acc :=
    if strIncludes symptom "insomnia" || strIncludes symptom "sleep" then
      { acc with warnings := acc.warnings ++
          ["Move stimulating supplements to morning time only."] }
    else acc
  let acc :=
    if strIncludes symptom "anxiety" then
      { acc with
        doseAdjustments := setAdj acc.doseAdjustments "sup_013" (1/2),
        warnings := acc.warnings ++ ["B-vitamin dose reduced due to anxiety symptoms."] }
    else acc
  if strIncludes symptom "cortisol" || strIncludes symptom "stress" then
    if ¬ conditions.any (fun c => strIncludes c "autoimmune") then
      { acc with autoAddSupplements := acc.autoAddSupplements ++ ["sup_006"] }
    else acc
  else acc

/-- processClinicalFlags of clinicalFlagsNode.ts. -/
def processClinicalFlags (clinicalFlags : Option ClinicalFlags) : ClinicalProcessing :=
  match clinicalFlags with
  | none => ⟨[], [], [], []⟩
  | some flags =>
    let medications := flags.currentMedications.map lowerStr
    let conditions := flags.medicalConditions.map lowerStr
    let symptoms := ((flags.symptomClusters.getD []).map lowerStr)
    let acc : ClinicalProcessing := ⟨[], [], [], []⟩
    let acc := medications.foldl processMedication acc
    let acc := conditions.foldl processCondition acc
    let acc := symptoms.foldl (processSymptom conditions) acc
    { acc with
      autoAddSupplements := dedupFirst acc.autoAddSupplements,
      blockedSupplements := dedupFirst acc.blockedSupplements }

/-- Result of checkHardStopFlags. -/
structure HardStopResult where
  isHardStop : Bool
  reason : String
  deriving DecidableEq, Repr

/-- checkHardStopFlags of clinicalFlagsNode.ts. -/
def checkHardStopFlags (clinicalFlags : Option ClinicalFlags) : HardStopResult :=
  match clinicalFlags with
  | none => ⟨false, ""⟩
  | some flags =>
    let medications := flags.currentMedications.map lowerStr
    let conditions := flags.medicalConditions.map lowerStr
    if flags.medicalConditions.any (fun c => strIncludes (lowerStr c) "pregnant") then
      ⟨true, "Pregnancy requires specialized protocol. Consult OB/GYN."⟩
    else if medications.any (fun m =>
        strIncludes m "warfarin" || strIncludes m "coumadin" || strIncludes m "anticoagulant") then
      ⟨true, "Anticoagulant use requires medical supervision for supplementation."⟩
    else if medications.any (fun m =>
        strIncludes m "epileptic" || strIncludes m "seizure") then
      ⟨true, "Antiepileptic medication requires medical supervision."⟩
    else if conditions.any (fun c =>
        strIncludes c "cirrhosis" || strIncludes c "hepatitis") then
      ⟨true, "Active liver disease requires specialized protocol."⟩
    else if conditions.any (fun c => strIncludes c "kidney failure") then
      ⟨true, "Severe kidney disease requires nephrologist consultation."⟩
    else ⟨false, ""⟩

/-! ## budgetLogic.ts -/

/-- One entry of BUDGET_TIER_DEFINITIONS. -/
structure TierConfig where
  name : String
  description : String
  maxSupplements : ℕ
  allowedTiers : List String
  doseMultiplier : ℚ
  maxMonthlyCost : ℚ
  deriving DecidableEq, Repr

/-- BUDGET_TIER_DEFINITIONS of budgetLogic.ts: the record keys are exactly
ESSENTIAL, GOOD and PREMIUM; any other index reads `undefined` (`none`). -/
def BUDGET_TIER_DEFINITIONS (budgetTier : String) : Option TierConfig :=
  if budgetTier = "ESSENTIAL" then
    some ⟨"Essential Baseline", "Core supplements for foundational health",
      5, ["ESSENTIAL"], 8/10, 50⟩
  else if budgetTier = "GOOD" then
    some ⟨"Balanced Approach", "Core + complementary supplements",
      8, ["ESSENTIAL", "GOOD"], 1, 100⟩
  else if budgetTier = "PREMIUM" then
    some ⟨"Comprehensive Stack", "Full protocol with premium additions",
      12, ["ESSENTIAL", "GOOD", "PREMIUM"], 11/10, 200⟩
  else none

/-- getBudgetDoseModifier of budgetLogic.ts; reading `.doseMultiplier` of an
undefined tier entry throws, modelled as `none`. -/
def getBudgetDoseModifier (budgetTier : String) : Option ℚ :=
  (BUDGET_TIER_DEFINITIONS budgetTier).map (·.doseMultiplier)

/-- Result record of adjustProtocolByBudget. -/
structure BudgetAdjustment where
  coreSupplements : List String
  selectedOptional : List String
  removedSupplements : List String
  deriving DecidableEq, Repr

/-- Body of adjustProtocolByBudget once the tier config has been read. -/
def adjustProtocolByBudgetCfg (coreSupplements optionalSupplements : List String)
    (config : TierConfig) : BudgetAdjustment :=
  let selectedCore := coreSupplements.take config.maxSupplements
  let remainingSlots := config.maxSupplements - selectedCore.length
  let selectedOptional := optionalSupplements.take remainingSlots
  let removed :=
    if coreSupplements.length > selectedCore.length then
      coreSupplements.drop selectedCore.length
    else []
  ⟨selectedCore, selectedOptional, removed⟩

/-- adjustProtocolByBudget of budgetLogic.ts; an unknown tier string throws
(reading `.maxSupplements` of undefined), modelled as `none`. -/
def adjustProtocolByBudget (coreSupplements optionalSupplements : List String)
    (budgetTier : String) : Option BudgetAdjustment :=
  (BUDGET_TIER_DEFINITIONS budgetTier).map
    (adjustProtocolByBudgetCfg coreSupplements optionalSupplements)

/-! ## demographicModifiers.ts -/

/-- getAgeMultiplier of demographicModifiers.ts. -/
def getAgeMultiplier (age : ℚ) : ℚ :=
  if age < 18 then 7/10
  else if age < 30 then 9/10
  else if age < 50 then 1
  else if age < 65 then 11/10
  else 12/10

/-- getGenderMultiplier of demographicModifiers.ts. -/
def getGenderMultiplier (gender : String) (menopauseStatus menstruationStatus : Option String) : ℚ :=
  if gender = "FEMALE" then
    if menopauseStatus = some "PREMENOPAUSAL" && menstruationStatus = some "REGULAR" then 11/10
    else if menopauseStatus = some "POSTMENOPAUSAL" then 95/100
    else 1
  else if gender = "MALE" then 1
  else 1

/-- getWeightMultiplier of demographicModifiers.ts (argument is the BMI). -/
def getWeightMultiplier (bmi : ℚ) : ℚ :=
  if bmi < 185/10 then 95/100
  else if bmi < 25 then 1
  else if bmi < 30 then 105/100
  else if bmi < 35 then 11/10
  else 115/100

/-- calculateBMI of demographicModifiers.ts (total rational division; the
height-zero case, Infinity in JS, is outside the data model). -/
def calculateBMI (weight height : ℚ) : ℚ := weight / ((height / 100) ^ 2)

/-- getTrainingLoadMultiplier of demographicModifiers.ts. -/
def getTrainingLoadMultiplier (trainingFrequency : Option String) : ℚ :=
  match trainingFrequency with
  | some "NONE" => 9/10
  | some "LIGHT" => 1
  | some "MODERATE" => 115/100
  | some "INTENSE" => 13/10
  | some "VERY_INTENSE" => 3/2
  | _ => 1

/-- calculateDemographicModifiers of demographicModifiers.ts. -/
def calculateDemographicModifiers (demographics : DemographicData) : DosageModifier :=
  { ageMultiplier := getAgeMultiplier demographics.age
    genderMultiplier := getGenderMultiplier demographics.gender
      demographics.menopauseStatus demographics.menstruationStatus
    weightMultiplier := getWeightMultiplier (calculateBMI demographics.weight demographics.height)
    trainingLoadMultiplier := getTrainingLoadMultiplier demographics.trainingFrequency
    symptomMultiplier := 1
    goalMultiplier := 1
    budgetMultiplier := 1 }

/-! ## dosingEngine.ts -/

/-- SupplementDosageData of dosingEngine.ts. -/
structure SupplementDosageData where
  id : String
  name : String
  doseRangeMin : ℚ
  doseRangeMax : ℚ
  doseRangeTypical : ℚ
  doseUnit : String
  genderModifiers : List (String × ℚ)
  ageModifiers : List (String × ℚ)
  useCasePriority : ℚ
  deriving DecidableEq, Repr

/-- getGenderModifier of dosingEngine.ts (JS truthiness of record reads). -/
def getGenderModifier (genderModifiers : List (String × ℚ))
    (demographics : DemographicData) : ℚ :=
  let fromStatus : Option ℚ :=
    if demographics.gender = "FEMALE" then
      if demographics.menopauseStatus = some "POSTMENOPAUSAL" then
        match alookup genderModifiers "female_postmenopausal" with
        | some v => if v = 0 then none else some v
        | none => none
      else if demographics.menopauseStatus = some "PREMENOPAUSAL" then
        match alookup genderModifiers "female_premenopausal" with
        | some v => if v = 0 then none else some v
        | none => none
      else none
    else none
  match fromStatus with
  | some v => v
  | none => lookupOr genderModifiers (lowerStr demographics.gender) 1

/-- getAgeModifier of dosingEngine.ts (JS truthiness of record reads). -/
def getAgeModifier (ageModifiers : List (String × ℚ)) (age : ℚ) : ℚ :=
  let truthy : String → Option ℚ := fun k =>
    match alookup ageModifiers k with
    | some v => if v = 0 then none else some v
    | none => none
  if age < 30 then
    match truthy "18-30" with
    | some v => v
    | none => rest
  else rest
where
  rest :=
    let truthy : String → Option ℚ := fun k =>
      match alookup ageModifiers k with
      | some v => if v = 0 then none else some v
      | none => none
    if age < 50 then
      match truthy "30-50" with
      | some v => v
      | none => match truthy "50+" with
        | some v => v
        | none => 1
    else match truthy "50+" with
      | some v => v
      | none => 1

/-- JS `Number.prototype.toFixed(0)`: round to nearest, ties away from zero. -/
def toFixed0 (q : ℚ) : ℤ := if 0 ≤ q then ⌊q + 1/2⌋ else -⌊-q + 1/2⌋

/-- getSupplementTiming of dosingEngine.ts. -/
def getSupplementTiming (supplementName : String) : String :=
  if supplementName = "Vitamin D3" then "Morning with breakfast"
  else if supplementName = "Magnesium Glycinate" then "Evening 30-60 min before bed"
  else if supplementName = "Omega-3 Fish Oil" then "With largest meal"
  else if supplementName = "Iron (Ferrous Bisglycinate)" then
    "Morning on empty stomach or with orange juice"
  else if supplementName = "Creatine Monohydrate" then "Anytime with meals"
  else if supplementName = "Ashwagandha (Withanolides 5%)" then "Twice daily with meals"
  else if supplementName = "CoQ10 (Ubiquinol)" then "With a fat-containing meal"
  else if supplementName = "Zinc Picolinate" then "Morning on empty stomach"
  else if supplementName = "Rhodiola Rosea (3% Rosavins)" then "Morning with breakfast"
  else if supplementName = "Turmeric (95% Curcuminoids)" then "With black pepper and fat"
  else if supplementName = "Berberine" then "With meals (2-3x daily)"
  else if supplementName = "Resveratrol" then "With a meal containing fat"
  else if supplementName = "B-Complex (High Potency)" then "Morning with breakfast"
  else if supplementName = "Probiotics (Multi-strain)" then "Morning on empty stomach or with meal"
  else if supplementName = "L-Theanine" then "Morning or with afternoon coffee"
  else "With meals"

/-- getSupplementCyclingRecommendation of dosingEngine.ts. -/
def getSupplementCyclingRecommendation (supplementName : String) : String :=
  if supplementName = "Rhodiola Rosea (3% Rosavins)" then
    "5 days on, 2 days off to maintain sensitivity"
  else if supplementName = "Creatine Monohydrate" then "Continuous - no cycling needed"
  else if supplementName = "Berberine" then "10 weeks on, 2 weeks off"
  else if supplementName = "Ashwagandha (Withanolides 5%)" then
    "8 weeks on, 1 week off to prevent tolerance"
  else "No cycling recommended"

/-- buildDoseReasoning of dosingEngine.ts (rational display differs from JS
number formatting only in the opaque free text). -/
def buildDoseReasoning (demographics : DemographicData)
    (symptomsRating : ℚ) (compositeModifier : ℚ) : String :=
  let parts : List String := ["Based on age (" ++ toString demographics.age ++ ")"]
  let parts := match demographics.trainingFrequency with
    | some tf => if tf ≠ "" ∧ tf ≠ "NONE" then
        parts ++ ["training frequency (" ++ tf ++ ")"] else parts
    | none => parts
  let parts := match demographics.menopauseStatus with
    | some ms => if demographics.gender = "FEMALE" ∧ ms ≠ "" then
        parts ++ ["reproductive status (" ++ ms ++ ")"] else parts
    | none => parts
  let parts := if symptomsRating > 7 then parts ++ ["elevated symptom rating"] else parts
  "Dose calculated " ++ joinSep ", " parts ++ ". Multiplier: " ++
    toString (toFixed0 (compositeModifier * 100)) ++ "% of baseline."

/-- Composite dose modifier of calculatePersonalizedDose, given the already
resolved budget dose multiplier: demographic product, symptom adjustment,
budget adjustment, then the clamp into [0.7, 1.5]. -/
def computeCompositeModifier (supplement : SupplementDosageData)
    (demographics : DemographicData) (symptomsRating : ℚ) (budgetMod : ℚ) : ℚ :=
  let modifiers := calculateDemographicModifiers demographics
  let genderMod := getGenderModifier supplement.genderModifiers demographics
  let ageMod := getAgeModifier supplement.ageModifiers demographics.age
  let c := genderMod * ageMod * modifiers.weightMultiplier * modifiers.trainingLoadMultiplier
  let symptomModifier := 9/10 + symptomsRating / 10 * (3/10)
  let c := c * symptomModifier
  let c := c * budgetMod
  min (max c (7/10)) (3/2)

/-- Result record of calculatePersonalizedDose. -/
structure DoseResult where
  optimalDose : ℚ
  minimumEffectiveDose : ℚ
  safeUpperLimit : ℚ
  timing : String
  cycling : String
  reasoning : String
  deriving DecidableEq, Repr

/-- Body of calculatePersonalizedDose after the budget modifier is resolved. -/
def calcDoseCore (supplement : SupplementDosageData) (demographics : DemographicData)
    (symptomsRating : ℚ) (budgetMod : ℚ) : DoseResult :=
  let compositeModifier := computeCompositeModifier supplement demographics symptomsRating budgetMod
  let optimalDose := supplement.doseRangeTypical * compositeModifier
  let minimumEffectiveDose := supplement.doseRangeMin * compositeModifier
  let safeUpperLimit := supplement.doseRangeMax * compositeModifier
  let finalOptimal := max minimumEffectiveDose (min optimalDose safeUpperLimit)
  { optimalDose := round1 finalOptimal
    minimumEffectiveDose := round1 minimumEffectiveDose
    safeUpperLimit := round1 safeUpperLimit
    timing := getSupplementTiming supplement.name
    cycling := getSupplementCyclingRecommendation supplement.name
    reasoning := buildDoseReasoning demographics symptomsRating compositeModifier }

/-- calculatePersonalizedDose of dosingEngine.ts; an unknown budget tier
string throws when the budget dose modifier is read, modelled as `none`. -/
def calculatePersonalizedDose (supplement : SupplementDosageData)
    (demographics : DemographicData) (symptomsRating : ℚ)
    (budgetTier : String) : Option DoseResult :=
  (getBudgetDoseModifier budgetTier).map
    (calcDoseCore supplement demographics symptomsRating)

/-! ## priorityScoring.ts -/

/-- SupplementScoringInput of priorityScoring.ts. -/
structure SupplementScoringInput where
  id : String
  name : String
  useCasePriority : ℚ
  evidenceLevel : String
  category : String
  genderModifiers : List (String × ℚ)
  ageModifiers : List (String × ℚ)
  deriving DecidableEq, Repr

/-- ScoringWeights of priorityScoring.ts. -/
structure ScoringWeights where
  goalAlignment : ℚ
  demographic : ℚ
  evidence : ℚ
  priority : ℚ
  training : ℚ
  age : ℚ
  deriving DecidableEq, Repr

/-- DEFAULT_WEIGHTS of priorityScoring.ts. -/
def DEFAULT_WEIGHTS : ScoringWeights :=
  ⟨3/10, 25/100, 2/10, 1/10, 1/10, 5/100⟩

/-- Per-goal alignment tables of calculateGoalAlignment. -/
def goalAlignments : List (String × List (String × ℚ)) :=
  [("ENERGY_RECOVERY",
    [("Creatine Monohydrate", 1), ("Magnesium Glycinate", 9/10),
     ("Omega-3 Fish Oil", 8/10), ("B-Complex (High Potency)", 9/10),
     ("CoQ10 (Ubiquinol)", 85/100), ("Vitamin D3", 7/10),
     ("Iron (Ferrous Bisglycinate)", 85/100)]),
   ("STRESS_SLEEP",
    [("Ashwagandha (Withanolides 5%)", 1), ("Magnesium Glycinate", 95/100),
     ("L-Theanine", 9/10), ("Rhodiola Rosea (3% Rosavins)", 7/10),
     ("B-Complex (High Potency)", 6/10)]),
   ("LONGEVITY",
    [("Resveratrol", 1), ("CoQ10 (Ubiquinol)", 95/100),
     ("Turmeric (95% Curcuminoids)", 9/10), ("Omega-3 Fish Oil", 9/10),
     ("Vitamin D3", 85/100), ("Probiotics (Multi-strain)", 75/100),
     ("Berberine", 8/10)]),
   ("ATHLETIC_PERFORMANCE",
    [("Creatine Monohydrate", 1), ("Zinc Picolinate", 85/100),
     ("Omega-3 Fish Oil", 8/10), ("Magnesium Glycinate", 85/100),
     ("B-Complex (High Potency)", 8/10), ("Iron (Ferrous Bisglycinate)", 75/100)]),
   ("METABOLIC_HEALTH",
    [("Berberine", 1), ("Turmeric (95% Curcuminoids)", 85/100),
     ("Zinc Picolinate", 8/10), ("Magnesium Glycinate", 75/100),
     ("Probiotics (Multi-strain)", 8/10), ("Vitamin D3", 7/10)]),
   ("IMMUNE_SUPPORT",
    [("Vitamin D3", 1), ("Zinc Picolinate", 95/100),
     ("Probiotics (Multi-strain)", 9/10), ("Turmeric (95% Curcuminoids)", 8/10),
     ("B-Complex (High Potency)", 75/100)]),
   ("BRAIN_HEALTH",
    [("Omega-3 Fish Oil", 1), ("B-Complex (High Potency)", 9/10),
     ("Magnesium Glycinate", 8/10), ("Turmeric (95% Curcuminoids)", 85/100),
     ("L-Theanine", 75/100), ("CoQ10 (Ubiquinol)", 7/10)]),
   ("JOINT_HEALTH",
    [("Turmeric (95% Curcuminoids)", 1), ("Omega-3 Fish Oil", 9/10),
     ("Magnesium Glycinate", 7/10), ("Vitamin D3", 75/100),
     ("Probiotics (Multi-strain)", 6/10)])]

/-- calculateGoalAlignment of priorityScoring.ts (`?? 0.5` is a nullish
fallback, so a stored 0 would be kept). -/
def calculateGoalAlignment (supplement : SupplementScoringInput) (goal : String) : ℚ :=
  match ((goalAlignments.find? (fun p => p.1 == goal)).map (·.2)).bind
      (fun t => alookup t supplement.name) with
  | some v => v
  | none => 1/2

/-- calculateDemographicFit of priorityScoring.ts (JS truthiness of the
record reads: a missing key or a stored 0 leaves the score unchanged). -/
def calculateDemographicFit (supplement : SupplementScoringInput)
    (demographics : DemographicData) : ℚ :=
  let score : ℚ := 1/2
  let genderKey := lowerStr demographics.gender
  let score := match alookup supplement.genderModifiers genderKey with
    | some v => if v = 0 then score else (if v > 1 then min v 1 else v)
    | none => score
  let ageKey := if demographics.age < 30 then "18-30"
    else if demographics.age ≥ 50 then "50+" else "30-50"
  let score := match alookup supplement.ageModifiers ageKey with
    | some v => if v = 0 then score else (score + min v 1) / 2
    | none => score
  min score 1

/-- calculateEvidenceScore of priorityScoring.ts. -/
def calculateEvidenceScore (evidenceLevel : String) : ℚ :=
  if evidenceLevel = "STRONG" then 1
  else if evidenceLevel = "MODERATE" then 75/100
  else if evidenceLevel = "EMERGING" then 1/2
  else 1/2

/-- List of training-focused supplements in calculateTrainingAlignment. -/
def trainingFocusedSupps : List String :=
  ["Creatine Monohydrate", "Zinc Picolinate", "Magnesium Glycinate"]

/-- calculateTrainingAlignment of priorityScoring.ts (an absent or empty
training frequency is falsy). -/
def calculateTrainingAlignment (supplement : SupplementScoringInput)
    (trainingFrequency : Option String) : ℚ :=
  let tf := trainingFrequency.getD ""
  if tf = "" ∨ tf = "NONE" then
    if supplement.name ∈ trainingFocusedSupps then 4/10 else 7/10
  else if tf = "INTENSE" ∨ tf = "VERY_INTENSE" then
    if supplement.name ∈ trainingFocusedSupps then 1 else 8/10
  else 7/10

/-- calculateAgeAppropiateness of priorityScoring.ts. -/
def calculateAgeAppropiateness (supplement : SupplementScoringInput) (age : ℚ) : ℚ :=
  if supplement.name = "Creatine Monohydrate" then (if age > 40 then 1 else 7/10)
  else if supplement.name = "CoQ10 (Ubiquinol)" then (if age > 50 then 1 else 6/10)
  else if supplement.name = "Resveratrol" then (if age > 45 then 1 else 1/2)
  else if supplement.name = "Vitamin D3" then (if age > 50 then 1 else 8/10)
  else if supplement.name = "Rhodiola Rosea (3% Rosavins)" then
    (if age > 60 then 7/10 else if age > 40 then 9/10 else 1)
  else 8/10

/-- buildScoringRationale of priorityScoring.ts. -/
def buildScoringRationale (supplement : SupplementScoringInput)
    (demographics : DemographicData) (goal : String)
    (goalScore demographicScore evidenceScore trainingScore : ℚ) : String :=
  let parts : List String := []
  let parts := if goalScore > 8/10 then
      parts ++ ["Strong alignment with " ++
        (goal.map (fun c => if c = '_' then ' ' else c)) ++ " goal"]
    else if goalScore > 1/2 then parts ++ ["Moderate alignment with goal"]
    else parts
  let parts := if demographicScore > 8/10 then
      parts ++ ["Excellent fit for " ++ lowerStr demographics.gender ++
        ", age " ++ toString demographics.age]
    else parts
  let parts := if evidenceScore = 1 then parts ++ ["Strong clinical evidence"]
    else if evidenceScore < 6/10 then
      parts ++ ["Emerging evidence - monitor effectiveness"]
    else parts
  let parts := match demographics.trainingFrequency with
    | some tf => if trainingScore > 8/10 ∧ tf ≠ "" then
        parts ++ ["Ideal for " ++ lowerStr tf ++ " training"] else parts
    | none => parts
  let joined := joinSep ". " parts
  if joined = "" then "Reasonable fit based on profile." else joined

/-- scoreSupplement of priorityScoring.ts: weighted component sum scaled to
0-100 and rounded. -/
def scoreSupplement (supplement : SupplementScoringInput)
    (demographics : DemographicData) (goal : String)
    (weights : ScoringWeights := DEFAULT_WEIGHTS) : PriorityScore :=
  let goalScore := calculateGoalAlignment supplement goal
  let demographicScore := calculateDemographicFit supplement demographics
  let evidenceScore := calculateEvidenceScore supplement.evidenceLevel
  let priorityScore := supplement.useCasePriority / 100
  let trainingScore := calculateTrainingAlignment supplement demographics.trainingFrequency
  let ageScore := calculateAgeAppropiateness supplement demographics.age
  let totalScore :=
    goalScore * weights.goalAlignment + demographicScore * weights.demographic +
    evidenceScore * weights.evidence + priorityScore * weights.priority +
    trainingScore * weights.training + ageScore * weights.age
  { supplementId := supplement.id
    supplementName := supplement.name
    score := jsRound (totalScore * 100)
    rationale := buildScoringRationale supplement demographics goal
      goalScore demographicScore evidenceScore trainingScore }

/-- Stable descending insertion for scores. The sort below inserts elements
from the right, so an element is placed before the first element whose score
is not larger; equal scores then keep their input order. -/
def insertDesc (x : PriorityScore) : List PriorityScore → List PriorityScore
  | [] => [x]
  | y :: ys => if x.score ≥ y.score then x :: y :: ys else y :: insertDesc x ys

/-- rankSupplementsByScore of priorityScoring.ts: JS `sort` with comparator
`(a, b) => b.score - a.score` is a stable descending sort, and a stable sort
of a list under a total preorder is unique, so stable insertion sort models
it exactly. -/
def rankSupplementsByScore (scores : List PriorityScore) : List PriorityScore :=
  scores.foldr insertDesc []

/-! ## safetyEngine.ts -/

/-- Demographics slice passed to the safety engine. -/
structure SafetyDemographics where
  age : ℚ
  gender : String
  pregnancyIntention : Option String := none
  deriving DecidableEq, Repr

/-- SafetyCheckInput of safetyEngine.ts. -/
structure SafetyCheckInput where
  supplements : List SupplementStack
  demographics : SafetyDemographics
  clinicalFlags : Option ClinicalFlags := none
  deriving DecidableEq, Repr

/-- Adjusted supplement entry (`SafetyIssue & \x7b newDose \x7d`). -/
structure AdjustedIssue where
  issue : SafetyIssue
  newDose : ℚ
  deriving DecidableEq, Repr

/-- SafetyCheckOutput of safetyEngine.ts. -/
structure SafetyCheckOutput where
  safeSupplements : List SupplementStack
  blockedSupplements : List SafetyIssue
  adjustedSupplements : List AdjustedIssue
  warnings : List SafetyIssue
  isSafeToGenerate : Bool
  deriving DecidableEq, Repr

/-- Pregnancy-unsafe herb list of checkContraindications. -/
def unsafeInPregnancy : List String :=
  ["Ashwagandha (Withanolides 5%)", "Turmeric (95% Curcuminoids)", "Berberine",
   "Resveratrol", "Rhodiola Rosea (3% Rosavins)"]

/-- Anticoagulant-interacting list of checkContraindications. -/
def anticoagulantInteracting : List String :=
  ["Omega-3 Fish Oil", "Turmeric (95% Curcuminoids)", "Resveratrol"]

/-- checkContraindications of safetyEngine.ts, in source check order. -/
def checkContraindications (supplementName : String)
    (demographics : SafetyDemographics)
    (clinicalFlags : Option ClinicalFlags) : Option SafetyIssue :=
  let conditions := ((clinicalFlags.map (·.medicalConditions)).getD []).map lowerStr
  let medications := ((clinicalFlags.map (·.currentMedications)).getD []).map lowerStr
  if (demographics.pregnancyIntention = some "YES" ∨
      demographics.pregnancyIntention = some "UNSURE") ∧
      supplementName ∈ unsafeInPregnancy then
    some ⟨.HARD_BLOCK, supplementName,
      "Contraindicated in pregnancy or pregnancy planning", .CRITICAL,
      "Do not use during pregnancy. Consult OB/GYN."⟩
  else if medications.any (fun m =>
        strIncludes m "warfarin" || strIncludes m "coumadin") ∧
      supplementName ∈ anticoagulantInteracting then
    some ⟨.HARD_BLOCK, supplementName,
      "May increase bleeding risk with anticoagulants", .CRITICAL,
      "Avoid or require INR monitoring by physician"⟩
  else if conditions.any (fun c =>
        strIncludes c "kidney" && strIncludes c "disease") ∧
      supplementName ∈ ["Magnesium Glycinate", "Creatine Monohydrate"] then
    some ⟨.HARD_BLOCK, supplementName, "Contraindicated in kidney disease",
      .CRITICAL, "Requires nephrologist consultation"⟩
  else if conditions.any (fun c => strIncludes c "liver") ∧
      supplementName ∈ ["Berberine", "Resveratrol"] then
    some ⟨.HARD_BLOCK, supplementName,
      "Hepatically metabolized - contraindicated in liver disease", .CRITICAL,
      "Avoid entirely"⟩
  else if conditions.any (fun c => strIncludes c "autoimmune") ∧
      supplementName = "Ashwagandha (Withanolides 5%)" then
    some ⟨.SOFT_WARN, supplementName,
      "May stimulate immune system in autoimmune conditions", .HIGH,
      "Monitor carefully under medical supervision"⟩
  else if conditions.any (fun c =>
        strIncludes c "hypotension" || strIncludes c "low blood pressure") ∧
      supplementName ∈ ["Ashwagandha (Withanolides 5%)", "Rhodiola Rosea (3% Rosavins)"] then
    some ⟨.ADJUST_DOSE, supplementName, "May lower blood pressure further",
      .MEDIUM, "Reduce dose and monitor BP regularly"⟩
  else if ((clinicalFlags.bind (·.symptomClusters)).getD []).any
        (fun s => strIncludes (lowerStr s) "insomnia") ∧
      supplementName ∈ ["Rhodiola Rosea (3% Rosavins)", "B-Complex (High Potency)"] then
    some ⟨.SOFT_WARN, supplementName,
      "May exacerbate insomnia if taken late in day", .MEDIUM,
      "Take only in morning"⟩
  else none

/-- checkMedicationInteractions of safetyEngine.ts. -/
def checkMedicationInteractions (supplementName : String)
    (medications : List String) : Option SafetyIssue :=
  if medications.length = 0 then none
  else
    let medLower := medications.map lowerStr
    if medLower.any (fun m => strIncludes m "ssri" || strIncludes m "sertraline") ∧
        supplementName ∈ ["Rhodiola Rosea (3% Rosavins)", "B-Complex (High Potency)"] then
      some ⟨.HARD_BLOCK, supplementName, "Serotonin syndrome risk with SSRIs",
        .CRITICAL, "Avoid combination"⟩
    else if medLower.any (fun m => strIncludes m "antibiotic") ∧
        supplementName ∈ ["Iron (Ferrous Bisglycinate)", "Probiotics (Multi-strain)"] then
      some ⟨.SOFT_WARN, supplementName,
        "May reduce antibiotic absorption or effectiveness", .HIGH,
        "Separate administration by 2+ hours"⟩
    else none

/-- checkHerbHerbInteractions of safetyEngine.ts. -/
def checkHerbHerbInteractions (supplementNames : List String) : List SafetyIssue :=
  let first : List SafetyIssue :=
    if supplementNames.contains "Ashwagandha (Withanolides 5%)" &&
        supplementNames.contains "Rhodiola Rosea (3% Rosavins)" then
      [⟨.SOFT_WARN, "Ashwagandha + Rhodiola combination",
        "Combined adaptogenic effect may cause drowsiness + alertness conflict",
        .LOW, "Space doses - rhodiola AM, ashwagandha PM"⟩]
    else []
  let second : List SafetyIssue :=
    if supplementNames.contains "Turmeric (95% Curcuminoids)" &&
        supplementNames.contains "Omega-3 Fish Oil" then
      [⟨.SOFT_WARN, "Turmeric + Omega-3 combination",
        "Both have blood-thinning properties", .MEDIUM,
        "Monitor for easy bruising; may require dose reduction"⟩]
    else []
  first ++ second

/-- checkCompoundInteractions of safetyEngine.ts. -/
def checkCompoundInteractions (supplementNames : List String) : List SafetyIssue :=
  let magnesiumSupps := ["Magnesium Glycinate"]
  let first : List SafetyIssue :=
    if (magnesiumSupps.filter (fun s => supplementNames.contains s)).length > 1 then
      [⟨.SOFT_WARN, "Excessive magnesium",
        "Multiple magnesium sources may cause diarrhea", .MEDIUM,
        "Use single magnesium source or reduce doses"⟩]
    else []
  let antioxidants := ["Turmeric (95% Curcuminoids)", "Resveratrol", "CoQ10 (Ubiquinol)"]
  let second : List SafetyIssue :=
    if (antioxidants.filter (fun s => supplementNames.contains s)).length ≥ 3 then
      [⟨.SOFT_WARN, "Excessive antioxidants",
        "Very high antioxidant load may interfere with exercise adaptation",
        .LOW, "Consider cycling antioxidants"⟩]
    else []
  first ++ second

/-- Accumulated per-supplement results of the performSafetyCheck loop. -/
structure SafetyAcc where
  safe : List SupplementStack
  blocked : List SafetyIssue
  adjusted : List AdjustedIssue
  warns : List SafetyIssue
  deriving DecidableEq, Repr

/-- One iteration of the performSafetyCheck supplement loop. -/
def safetyStep (demographics : SafetyDemographics) (clinicalFlags : Option ClinicalFlags)
    (supplement : SupplementStack) : SafetyAcc :=
  let medications := (clinicalFlags.map (·.currentMedications)).getD []
  let afterMed : List SafetyIssue → SafetyAcc := fun contraWarns =>
    match checkMedicationInteractions supplement.supplementName medications with
    | some medInteraction =>
      if medInteraction.type = .HARD_BLOCK then
        ⟨[], [medInteraction], [], contraWarns⟩
      else ⟨[supplement], [], [], contraWarns ++ [medInteraction]⟩
    | none => ⟨[supplement], [], [], contraWarns⟩
  match checkContraindications supplement.supplementName demographics clinicalFlags with
  | some issue =>
    if issue.type = .HARD_BLOCK then ⟨[], [issue], [], []⟩
    else if issue.type = .ADJUST_DOSE then
      ⟨[], [], [⟨issue, supplement.dose * (1/2)⟩], []⟩
    else afterMed [issue]
  | none => afterMed []

/-- Supplement loop of performSafetyCheck, preserving push order. -/
def safetyLoop (demographics : SafetyDemographics) (clinicalFlags : Option ClinicalFlags) :
    List SupplementStack → SafetyAcc
  | [] => ⟨[], [], [], []⟩
  | s :: rest =>
    let h := safetyStep demographics clinicalFlags s
    let r := safetyLoop demographics clinicalFlags rest
    ⟨h.safe ++ r.safe, h.blocked ++ r.blocked, h.adjusted ++ r.adjusted, h.warns ++ r.warns⟩

/-- performSafetyCheck of safetyEngine.ts. -/
def performSafetyCheck (input : SafetyCheckInput) : SafetyCheckOutput :=
  let acc := safetyLoop input.demographics input.clinicalFlags input.supplements
  let names := input.supplements.map (·.supplementName)
  let warnings := acc.warns ++ checkHerbHerbInteractions names ++ checkCompoundInteractions names
  { safeSupplements := acc.safe
    blockedSupplements := acc.blocked
    adjustedSupplements := acc.adjusted
    warnings := warnings
    isSafeToGenerate := acc.blocked.length = 0 }

/-- getSafetyAssessmentSummary of safetyEngine.ts. -/
def getSafetyAssessmentSummary (output : SafetyCheckOutput) : String :=
  if output.blockedSupplements.length > 0 then
    "SAFETY HOLD: " ++ toString output.blockedSupplements.length ++
      " supplement(s) blocked due to safety concerns."
  else if output.warnings.length > 0 then
    "⚠️ CAUTION: " ++ toString output.warnings.length ++
      " warning(s) require attention. Review carefully."
  else "✓ All safety checks passed. Safe to generate prescription."

/-! ## prescriptionEngine.ts -/

/-- Protocol data slice of PrescriptionGenerationRequest. -/
structure ProtocolData where
  id : String
  name : String
  goal : String
  coreSupplementIds : List String
  optionalSupplementIds : List String
  deriving DecidableEq, Repr

/-- PrescriptionGenerationRequest of prescriptionEngine.ts. -/
structure PrescriptionGenerationRequest where
  input : GenerationInput
  protocolData : ProtocolData
  supplementData : List SupplementDosageData
  deriving DecidableEq, Repr

/-- Safety summary of the generation result. -/
structure SafetyOverview where
  isSafe : Bool
  issues : List String
  deriving DecidableEq, Repr

/-- Return record of generatePrescription. -/
structure GenerationResult where
  prescription : Option PrescriptionOutput
  errors : List String
  warnings : List String
  safety : SafetyOverview
  deriving DecidableEq, Repr

/-- buildLifestyleRecommendations of prescriptionEngine.ts (the input
parameter is accepted and ignored, as in the source). -/
def buildLifestyleRecommendations (category : String) (_input : GenerationInput) : List String :=
  if category = "sleep" then
    ["Target 7-9 hours per night", "Maintain consistent sleep schedule",
     "Avoid screens 1 hour before bed", "Keep bedroom cool and dark",
     "Consider magnesium glycinate 1-2 hours before bed"]
  else if category = "diet" then
    ["Prioritize whole, unprocessed foods", "Include protein at each meal",
     "Eat colorful vegetables daily", "Stay hydrated (8-10 cups water daily)",
     "Limit processed foods and added sugars"]
  else if category = "training" then
    ["Engage in regular physical activity", "Mix cardio and resistance training",
     "Allow adequate recovery between sessions", "Progressive overload for strength gains",
     "Stretch and foam roll regularly"]
  else if category = "stress" then
    ["Practice 10-15 minutes daily meditation", "Take regular breaks from screens",
     "Engage in activities you enjoy", "Maintain social connections",
     "Consider yoga or tai chi"]
  else []

/-- Conversion of catalog rows to scoring inputs as done inline in phase 5
(evidence level is the placeholder MODERATE, category general). -/
def scoringInputOf (supplement : SupplementDosageData) : SupplementScoringInput :=
  ⟨supplement.id, supplement.name, supplement.useCasePriority, "MODERATE", "general",
    supplement.genderModifiers, supplement.ageModifiers⟩

/-- Phase 3: clinical flags processing of the orchestrator. -/
def pipelineClinical (request : PrescriptionGenerationRequest) : ClinicalProcessing :=
  processClinicalFlags request.input.clinicalFlags

/-- Phase 4/5: ids selected from the budget-trimmed protocol lists. -/
def pipelineSelectedIds (request : PrescriptionGenerationRequest) (cfg : TierConfig) : List String :=
  let adj := adjustProtocolByBudgetCfg request.protocolData.coreSupplementIds
    request.protocolData.optionalSupplementIds cfg
  adj.coreSupplements ++ adj.selectedOptional

/-- Phase 5: deduplicated, auto-add-extended, block-filtered id list. -/
def pipelineFilteredIds (request : PrescriptionGenerationRequest) (cfg : TierConfig) : List String :=
  let clinicalProcessing := pipelineClinical request
  (dedupFirst (pipelineSelectedIds request cfg ++ clinicalProcessing.autoAddSupplements)).filter
    (fun id => !(clinicalProcessing.blockedSupplements.contains id))

/-- Phase 5: per-id scores (ids without a catalog row are dropped). -/
def pipelineScores (request : PrescriptionGenerationRequest) (cfg : TierConfig) : List PriorityScore :=
  (pipelineFilteredIds request cfg).filterMap (fun supId =>
    (request.supplementData.find? (fun s => s.id == supId)).map (fun supplement =>
      scoreSupplement (scoringInputOf supplement) request.input.demographics request.input.goal))

/-- Phase 5: ranked scores. -/
def pipelineRanked (request : PrescriptionGenerationRequest) (cfg : TierConfig) : List PriorityScore :=
  rankSupplementsByScore (pipelineScores request cfg)

/-- JS `request.input.symptomsRating || 5` (0 and undefined are falsy). -/
def effectiveSymptomsRating (input : GenerationInput) : ℚ :=
  match input.symptomsRating with
  | some v => if v = 0 then 5 else v
  | none => 5

/-- Phase 6: dosed supplement stack in ranked order (names without a catalog
row are skipped; the budget dose modifier comes from the resolved config). -/
def pipelineDosed (request : PrescriptionGenerationRequest) (cfg : TierConfig) : List SupplementStack :=
  (pipelineRanked request cfg).filterMap (fun score =>
    (request.supplementData.find? (fun s => s.name == score.supplementName)).map
      (fun supplement =>
        let dosage := calcDoseCore supplement request.input.demographics
          (effectiveSymptomsRating request.input) cfg.doseMultiplier
        { supplementId := supplement.id
          supplementName := supplement.name
          dose := dosage.optimalDose
          unit := supplement.doseUnit
          timing := dosage.timing
          doseType := "OPTIMAL"
          reasoning := dosage.reasoning }))

/-- Morning bucket test of phase 7. -/
def morningPred (s : SupplementStack) : Bool :=
  ["Morning", "morning", "AM"].any (fun t => strIncludes s.timing t)

/-- Afternoon bucket test of phase 7. -/
def afternoonPred (s : SupplementStack) : Bool :=
  ["Afternoon", "afternoon", "PM"].any (fun t => strIncludes s.timing t)

/-- Evening bucket test of phase 7. -/
def eveningPred (s : SupplementStack) : Bool :=
  ["Evening", "evening", "bed"].any (fun t => strIncludes s.timing t)

/-- Phase 7: time-of-day stacking with greedy overflow of unscheduled items
into morning (cap 5) and then afternoon. -/
def pipelineStacks (dosed : List SupplementStack) :
    List SupplementStack × List SupplementStack × List SupplementStack :=
  let morningSupps := dosed.filter morningPred
  let afternoonSupps := dosed.filter afternoonPred
  let eveningSupps := dosed.filter eveningPred
  let unscheduled := dosed.filter
    (fun s => !(morningPred s || afternoonPred s || eveningPred s))
  let slots := 5 - morningSupps.length
  (morningSupps ++ unscheduled.take slots,
   afternoonSupps ++ unscheduled.drop slots,
   eveningSupps)

/-- Phase 8: safety check over the dosed stack. -/
def pipelineSafety (request : PrescriptionGenerationRequest) (cfg : TierConfig) : SafetyCheckOutput :=
  performSafetyCheck
    { supplements := pipelineDosed request cfg
      demographics :=
        { age := request.input.demographics.age
          gender := request.input.demographics.gender
          pregnancyIntention := request.input.demographics.pregnancyIntention }
      clinicalFlags := request.input.clinicalFlags }

/-- generatePrescription of prescriptionEngine.ts. `now` is the timestamp the
source reads from the wall clock in phase 9; an unknown budget tier string
makes phase 4 throw, modelled as `none`. -/
def generatePrescription (now : String) (request : PrescriptionGenerationRequest) :
    Option GenerationResult :=
  match selectGoal request.input.goal with
  | none =>
    let msg := "Goal selection failed: Error: Invalid goal: " ++ request.input.goal
    some ⟨none, [msg], [], ⟨false, [msg]⟩⟩
  | some selectedGoal =>
    let hardStopCheck := checkHardStopFlags request.input.clinicalFlags
    if hardStopCheck.isHardStop then
      let msg := "HARD STOP: " ++ hardStopCheck.reason
      some ⟨none, [msg], [], ⟨false, [msg]⟩⟩
    else
      let clinicalProcessing := pipelineClinical request
      let warnings₁ := clinicalProcessing.warnings
      match BUDGET_TIER_DEFINITIONS request.input.budgetTier with
      | none => none
      | some cfg =>
        let budgetAdjustment := adjustProtocolByBudgetCfg
          request.protocolData.coreSupplementIds
          request.protocolData.optionalSupplementIds cfg
        let warnings₂ := warnings₁ ++
          (if budgetAdjustment.removedSupplements.length > 0 then
            ["Budget tier " ++ request.input.budgetTier ++ " limits stack to " ++
              toString (budgetAdjustment.coreSupplements.length +
                budgetAdjustment.selectedOptional.length) ++ " supplements."]
          else [])
        let rankedSupplements := pipelineRanked request cfg
        let dosedSupplements := pipelineDosed request cfg
        let stackTriple := pipelineStacks dosedSupplements
        let safetyCheck := pipelineSafety request cfg
        if !safetyCheck.isSafeToGenerate then
          let safetyErrors := safetyCheck.blockedSupplements.map
            (fun b => b.supplementName ++ ": " ++ b.reason)
          let msg := "Safety violations: " ++ joinSep "; " safetyErrors
          some ⟨none, [msg], warnings₂, ⟨false, safetyErrors⟩⟩
        else
          let warnings₃ := warnings₂ ++ safetyCheck.warnings.map
            (fun w => w.supplementName ++ ": " ++ w.reason)
          let prescription : PrescriptionOutput :=
            { summary :=
                { goal := selectedGoal.label
                  priority := (rankedSupplements.take 3).map (·.supplementName)
                  pathwayFocus := ["Metabolic optimization", "Nutrient sufficiency", "Safety first"]
                  generatedAt := now }
              morningStack := stackTriple.1
              afternoonStack := if stackTriple.2.1.length > 0 then some stackTriple.2.1 else none
              eveningStack := stackTriple.2.2
              lifestyle :=
                { sleep := buildLifestyleRecommendations "sleep" request.input
                  diet := buildLifestyleRecommendations "diet" request.input
                  training := buildLifestyleRecommendations "training" request.input
                  stressReduction := buildLifestyleRecommendations "stress" request.input }
              redFlags := clinicalProcessing.warnings.map (fun w => ⟨.MEDIUM, w⟩)
              shoppingList := dosedSupplements.map
                (fun s => ⟨s.supplementName, ⌈s.dose / 10 * 30⌉, s.unit, 25⟩)
              warnings := warnings₃ }
          some ⟨some prescription, [], warnings₃,
            ⟨safetyCheck.isSafeToGenerate,
             safetyCheck.blockedSupplements.map (fun b => b.supplementName ++ ": " ++ b.reason)⟩⟩

/-- Validation result of validateGenerationInput. -/
structure ValidationResult where
  valid : Bool
  errors : List String
  deriving DecidableEq, Repr

/-- validateGenerationInput of prescriptionEngine.ts. Note that the accepted
tier names here are ESSENTIAL, COMPREHENSIVE and PREMIUM, which disagrees
with the tier names of budgetLogic.ts. -/
def validateGenerationInput (input : GenerationInput) : ValidationResult :=
  let errors : List String := []
  let errors := errors ++
    (if input.demographics.age = 0 ∨ input.demographics.age < 13 ∨
        input.demographics.age > 120 then
      ["Age must be between 13 and 120"] else [])
  let errors := errors ++ (if input.goal = "" then ["Goal required"] else [])
  let errors := errors ++
    (if input.budgetTier ∉ ["ESSENTIAL", "COMPREHENSIVE", "PREMIUM"] then
      ["Invalid budget tier"] else [])
  ⟨errors.length = 0, errors⟩

/-! ## General lemmas about the modelling helpers -/

/-- Membership in the dedup worker: kept iff present and not already seen. -/
theorem mem_dedupAux {a : String} : ∀ {l seen : List String},
    a ∈ dedupAux seen l ↔ a ∈ l ∧ a ∉ seen := by
  intro l
  induction l with
  | nil => intro seen; simp [dedupAux]
  | cons x xs ih =>
    intro seen
    by_cases hx : x ∈ seen
    · simp only [dedupAux, if_pos hx, ih]
      constructor
      · rintro ⟨ha, hs⟩; exact ⟨List.mem_cons_of_mem x ha, hs⟩
      · rintro ⟨ha, hs⟩
        rcases List.mem_cons.mp ha with rfl | ha
        · exact absurd hx hs
        · exact ⟨ha, hs⟩
    · simp only [dedupAux, if_neg hx, List.mem_cons, ih]
      constructor
      · rintro (rfl | ⟨ha, hs⟩)
        · exact ⟨Or.inl rfl, hx⟩
        · exact ⟨Or.inr ha, fun hc => hs (Or.inr hc)⟩
      · rintro ⟨rfl | ha, hs⟩
        · exact Or.inl rfl
        · by_cases hax : a = x
          · exact Or.inl hax
          · exact Or.inr ⟨ha, fun hc => hc.elim hax hs⟩

/-- Membership is preserved by first-occurrence deduplication. -/
theorem mem_dedupFirst {a : String} {l : List String} :
    a ∈ dedupFirst l ↔ a ∈ l := by
  simp [dedupFirst, mem_dedupAux]

/-- Deduplication produces a duplicate-free list. -/
theorem nodup_dedupAux : ∀ (l seen : List String), (dedupAux seen l).Nodup := by
  intro l
  induction l with
  | nil => intro seen; simp [dedupAux]
  | cons x xs ih =>
    intro seen
    by_cases hx : x ∈ seen
    · simpa [dedupAux, if_pos hx] using ih seen
    · simp only [dedupAux, if_neg hx, List.nodup_cons]
      refine ⟨fun hc => ?_, ih (x :: seen)⟩
      exact (mem_dedupAux.mp hc).2 (List.mem_cons_self x seen)

/-- Deduplicated lists are duplicate-free. -/
theorem nodup_dedupFirst (l : List String) : (dedupFirst l).Nodup :=
  nodup_dedupAux l []

/-- Length of a filterMap as a countP of defined results. -/
theorem length_filterMap_countP {α β : Type} (f : α → Option β) :
    ∀ l : List α, (l.filterMap f).length = l.countP (fun a => (f a).isSome) := by
  intro l
  induction l with
  | nil => simp
  | cons x xs ih =>
    cases hx : f x with
    | none => simp [List.filterMap_cons, hx, List.countP_cons, ih]
    | some b => simp [List.filterMap_cons, hx, List.countP_cons, ih]

/-- CountP over a filterMap, pushed to the original list. -/
theorem countP_filterMap {α β : Type} (f : α → Option β) (p : β → Bool) :
    ∀ l : List α, (l.filterMap f).countP p =
      l.countP (fun a => ((f a).map p).getD false) := by
  intro l
  induction l with
  | nil => simp
  | cons x xs ih =>
    cases hx : f x with
    | none => simp [List.filterMap_cons, hx, List.countP_cons, ih]
    | some b =>
      by_cases hb : p b = true
      · simp [List.filterMap_cons, hx, List.countP_cons, ih, hb]
      · simp [List.filterMap_cons, hx, List.countP_cons, ih, hb]

/-- CountP is monotone from a duplicate-free list into any superset. -/
theorem countP_mono_nodup_subset {α : Type} [DecidableEq α] {l₁ l₂ : List α}
    (p : α → Bool) (h₁ : l₁.Nodup) (hsub : ∀ a, a ∈ l₁ → a ∈ l₂) :
    l₁.countP p ≤ l₂.countP p := by
  rw [List.countP_eq_length_filter, List.countP_eq_length_filter]
  have hn : (l₁.filter p).Nodup := h₁.filter p
  have hs : ∀ a, a ∈ l₁.filter p → a ∈ l₂.filter p := by
    intro a ha
    rcases List.mem_filter.mp ha with ⟨hmem, hp⟩
    exact List.mem_filter.mpr ⟨hsub a hmem, hp⟩
  calc (l₁.filter p).length = (l₁.filter p).toFinset.card :=
        (List.toFinset_card_of_nodup hn).symm
    _ ≤ (l₂.filter p).toFinset.card := by
        apply Finset.card_le_card
        intro a ha
        exact List.mem_toFinset.mpr (hs a (List.mem_toFinset.mp ha))
    _ ≤ (l₂.filter p).length := (l₂.filter p).toFinset_card_le

/-- Membership in a shorter take implies membership in a longer take. -/
theorem mem_take_mono {α : Type} {l : List α} {m n : ℕ} {a : α}
    (h : m ≤ n) (ha : a ∈ l.take m) : a ∈ l.take n := by
  have : l.take m = (l.take n).take m := by
    rw [List.take_take, Nat.min_eq_left h]
  rw [this] at ha
  exact List.take_subset m (l.take n) ha

/-- One-decimal rounding is monotone. -/
theorem round1_mono {x y : ℚ} (h : x ≤ y) : round1 x ≤ round1 y := by
  unfold round1 jsRound
  have hf : ⌊x * 10 + 1/2⌋ ≤ ⌊y * 10 + 1/2⌋ := by
    apply Int.floor_le_floor
    nlinarith
  have : ((⌊x * 10 + 1/2⌋ : ℚ)) ≤ ((⌊y * 10 + 1/2⌋ : ℚ)) := by exact_mod_cast hf
  linarith

/-! ## Concrete fixtures used by witnesses and counterexamples -/

/-- Fixed timestamp used where the source reads the wall clock. -/
def now₀ : String := "2026-01-01T00:00:00.000Z"

/-- Catalog row for L-Theanine (timing table: Morning or with afternoon coffee). -/
def theanineEntry : SupplementDosageData :=
  { id := "sup_014", name := "L-Theanine", doseRangeMin := 100, doseRangeMax := 400,
    doseRangeTypical := 200, doseUnit := "mg", genderModifiers := [],
    ageModifiers := [], useCasePriority := 70 }

/-- Simple male-40 demographics. -/
def demoMale40 : DemographicData :=
  { age := 40, gender := "MALE", weight := 80, height := 180 }

/-- Request: STRESS_SLEEP, ESSENTIAL tier, protocol with the single core
supplement L-Theanine, no clinical flags. -/
def reqTheanine : PrescriptionGenerationRequest :=
  { input := { demographics := demoMale40, goal := "STRESS_SLEEP", budgetTier := "ESSENTIAL" }
    protocolData := ⟨"prot_002", "Stress & Sleep", "STRESS_SLEEP", ["sup_014"], []⟩
    supplementData := [theanineEntry] }

/-- Generation result of the L-Theanine request (defined total via getD). -/
def genTheanineRes : GenerationResult :=
  (generatePrescription now₀ reqTheanine).getD ⟨none, [], [], ⟨false, []⟩⟩

/-- Prescription of the L-Theanine request. -/
def genTheaninePres : PrescriptionOutput :=
  genTheanineRes.prescription.getD
    ⟨⟨"", [], [], ""⟩, [], none, [], ⟨[], [], [], []⟩, [], [], []⟩

/-- Resolved ESSENTIAL tier configuration. -/
def cfgEssential : TierConfig :=
  (BUDGET_TIER_DEFINITIONS "ESSENTIAL").getD ⟨"", "", 0, [], 0, 0⟩

/-! ## Claim theorems -/

/-- Safety-to-generate flag holds exactly when no supplement was hard-blocked. -/
theorem isSafe_iff_blocked_nil (input : SafetyCheckInput) :
    (performSafetyCheck input).isSafeToGenerate = true ↔
      (performSafetyCheck input).blockedSupplements = [] := by
  unfold performSafetyCheck
  simp [List.length_eq_zero]

/-- C1: for every generation request, if generatePrescription returns a
non-null prescription then no supplement name in the safety check's
blockedSupplements also appears in the morning, afternoon or evening stack
of that prescription (the success branch requires the blocked list to be
empty, so the exclusion holds for every blocked entry). -/
theorem blocked_never_in_output_stacks (now : String)
    (request : PrescriptionGenerationRequest) (res : GenerationResult)
    (p : PrescriptionOutput) (cfg : TierConfig)
    (hgen : generatePrescription now request = some res)
    (hp : res.prescription = some p)
    (hcfg : BUDGET_TIER_DEFINITIONS request.input.budgetTier = some cfg) :
    ((pipelineSafety request cfg).blockedSupplements.all (fun issue =>
      !((p.morningStack ++ p.afternoonStack.getD [] ++ p.eveningStack).map
          (·.supplementName)).contains issue.supplementName)) = true := by
  unfold generatePrescription at hgen
  split at hgen
  · injection hgen with h2
    subst h2
    simp at hp
  · by_cases hhs : (checkHardStopFlags request.input.clinicalFlags).isHardStop = true
    · simp only [hhs, if_true] at hgen
      injection hgen with h2
      subst h2
      simp at hp
    · simp only [hhs, Bool.false_eq_true, if_false] at hgen
      split at hgen
      · exact absurd hgen (by simp)
      · rename_i cfg' hcfg'
        have hcc : cfg' = cfg := by
          have := hcfg.symm.trans hcfg'
          exact (Option.some.inj this).symm
        subst hcc
        by_cases hsafe : (pipelineSafety request cfg').isSafeToGenerate = true
        · have hnil : (pipelineSafety request cfg').blockedSupplements = [] := by
            have h := hsafe
            unfold pipelineSafety at h ⊢
            exact (isSafe_iff_blocked_nil _).mp h
          rw [hnil]
          rfl
        · simp only [Bool.not_eq_true] at hsafe
          simp only [hsafe, Bool.not_false, if_true] at hgen
          injection hgen with h2
          subst h2
          simp at hp

/-- C1 witness: the L-Theanine request generates a prescription and the
exclusion property holds for it. -/
theorem blocked_never_in_output_stacks_witness :
    ((pipelineSafety reqTheanine cfgEssential).blockedSupplements.all (fun issue =>
      !((genTheaninePres.morningStack ++ genTheaninePres.afternoonStack.getD [] ++
          genTheaninePres.eveningStack).map
          (·.supplementName)).contains issue.supplementName)) = true :=
  blocked_never_in_output_stacks now₀ reqTheanine genTheanineRes genTheaninePres
    cfgEssential rfl rfl rfl

/-- C2: a returned generation result has a null prescription exactly when its
errors list is non-empty, and the only error messages are the invalid-goal,
clinical hard-stop and safety hard-block ones. -/
theorem prescription_null_iff_errors (now : String)
    (request : PrescriptionGenerationRequest) (res : GenerationResult)
    (h : generatePrescription now request = some res) :
    (res.prescription = none ↔ res.errors ≠ []) ∧
    (res.prescription = none →
      (∃ g, res.errors = ["Goal selection failed: Error: Invalid goal: " ++ g]) ∨
      (∃ r, res.errors = ["HARD STOP: " ++ r]) ∨
      (∃ s, res.errors = ["Safety violations: " ++ s])) := by
  unfold generatePrescription at h
  split at h
  · injection h with h2
    subst h2
    refine ⟨by simp, fun _ => Or.inl ⟨request.input.goal, rfl⟩⟩
  · by_cases hhs : (checkHardStopFlags request.input.clinicalFlags).isHardStop = true
    · simp only [hhs, if_true] at h
      injection h with h2
      subst h2
      exact ⟨by simp, fun _ =>
        Or.inr (Or.inl ⟨(checkHardStopFlags request.input.clinicalFlags).reason, rfl⟩)⟩
    · simp only [hhs, Bool.false_eq_true, if_false] at h
      split at h
      · exact absurd h (by simp)
      · rename_i cfg hcfg
        by_cases hsafe : (pipelineSafety request cfg).isSafeToGenerate = true
        · simp only [hsafe, Bool.not_true, Bool.false_eq_true, if_false] at h
          injection h with h2
          subst h2
          exact ⟨by simp, by simp⟩
        · simp only [Bool.not_eq_true] at hsafe
          simp only [hsafe, Bool.not_false, if_true] at h
          injection h with h2
          subst h2
          refine ⟨by simp, fun _ => Or.inr (Or.inr ⟨_, rfl⟩)⟩

/-- C2 witness: the L-Theanine request returns a result, a non-null
prescription and an empty errors list. -/
theorem prescription_null_iff_errors_witness :
    (genTheanineRes.prescription = none ↔ genTheanineRes.errors ≠ []) ∧
    (genTheanineRes.prescription = none →
      (∃ g, genTheanineRes.errors = ["Goal selection failed: Error: Invalid goal: " ++ g]) ∨
      (∃ r, genTheanineRes.errors = ["HARD STOP: " ++ r]) ∨
      (∃ s, genTheanineRes.errors = ["Safety violations: " ++ s])) :=
  prescription_null_iff_errors now₀ reqTheanine genTheanineRes rfl

/-- C10: the time-of-day stacks are independent substring filters, so they
are not necessarily disjoint: on the L-Theanine request (timing string
Morning or with afternoon coffee) the generation succeeds and the very same
L-Theanine entry appears in both the morning and the afternoon stack. -/
theorem theanine_in_morning_and_afternoon :
    ∃ res p s, generatePrescription now₀ reqTheanine = some res ∧
      res.prescription = some p ∧ s ∈ p.morningStack ∧
      s ∈ p.afternoonStack.getD [] ∧ s.supplementName = "L-Theanine" := by
  refine ⟨genTheanineRes, genTheaninePres, _, rfl, rfl, List.Mem.head _, ?_, ?_⟩
  · exact List.Mem.head _
  · rfl

/-- Pregnancy with intention YES or UNSURE hard-blocks every pregnancy-unsafe
supplement present in the checked stack. -/
theorem pregnancy_blocked_mem (demo : SafetyDemographics) (flags : Option ClinicalFlags)
    (hpreg : demo.pregnancyIntention = some "YES" ∨ demo.pregnancyIntention = some "UNSURE") :
    ∀ (l : List SupplementStack) (s : SupplementStack), s ∈ l →
    s.supplementName ∈ unsafeInPregnancy →
    (⟨.HARD_BLOCK, s.supplementName, "Contraindicated in pregnancy or pregnancy planning",
      .CRITICAL, "Do not use during pregnancy. Consult OB/GYN."⟩ : SafetyIssue) ∈
      (safetyLoop demo flags l).blocked := by
  intro l
  induction l with
  | nil => intro s hs _; cases hs
  | cons x xs ih =>
    intro s hs hname
    rcases List.mem_cons.mp hs with rfl | hs
    · have hcc : checkContraindications s.supplementName demo flags =
          some ⟨.HARD_BLOCK, s.supplementName,
            "Contraindicated in pregnancy or pregnancy planning", .CRITICAL,
            "Do not use during pregnancy. Consult OB/GYN."⟩ := by
        unfold checkContraindications
        rw [if_pos ⟨hpreg, hname⟩]
      simp only [safetyLoop, safetyStep, hcc]
      simp
    · simp only [safetyLoop]
      exact List.mem_append.mpr (Or.inr (ih s hs hname))

/-- Shape of the generation result on the safety-hard-block branch. -/
theorem gen_unsafe_branch (now : String) (request : PrescriptionGenerationRequest)
    (sg : SelectedGoal) (cfg : TierConfig)
    (hsg : selectGoal request.input.goal = some sg)
    (hhs : (checkHardStopFlags request.input.clinicalFlags).isHardStop = false)
    (hcfg : BUDGET_TIER_DEFINITIONS request.input.budgetTier = some cfg)
    (hsafeF : (pipelineSafety request cfg).isSafeToGenerate = false) :
    ∃ w, generatePrescription now request = some ⟨none,
      ["Safety violations: " ++ joinSep "; "
        ((pipelineSafety request cfg).blockedSupplements.map
          (fun b => b.supplementName ++ ": " ++ b.reason))],
      w,
      ⟨false, (pipelineSafety request cfg).blockedSupplements.map
        (fun b => b.supplementName ++ ": " ++ b.reason)⟩⟩ := by
  unfold generatePrescription
  simp only [hsg, hhs, hcfg, hsafeF, Bool.false_eq_true, if_false, Bool.not_false, if_true]
  exact ⟨_, rfl⟩

/-- Female demographics with pregnancy intention YES. -/
def demoPregYes : DemographicData :=
  { age := 30, gender := "FEMALE", weight := 60, height := 165,
    pregnancyIntention := some "YES" }

/-- Catalog row for Rhodiola (herb class, id sup_009). -/
def rhodiolaEntry : SupplementDosageData :=
  { id := "sup_009", name := "Rhodiola Rosea (3% Rosavins)", doseRangeMin := 200,
    doseRangeMax := 600, doseRangeTypical := 400, doseUnit := "mg",
    genderModifiers := [], ageModifiers := [], useCasePriority := 60 }

/-- Request with pregnancy intention YES, a goal whose protocol has the
herb-class core supplement Rhodiola, and an SSRI medication flag that blocks
that herb before assembly. -/
def reqC3ce : PrescriptionGenerationRequest :=
  { input := { demographics := demoPregYes, goal := "STRESS_SLEEP",
               budgetTier := "ESSENTIAL",
               clinicalFlags := some ⟨["ssri"], [], none, none⟩ }
    protocolData := ⟨"prot_002", "Stress & Sleep", "STRESS_SLEEP", ["sup_009"], []⟩
    supplementData := [rhodiolaEntry] }

/-- C3 counterexample: a request with pregnancy intention YES and a protocol
whose core list is the herb-class supplement Rhodiola, but whose SSRI flag
removes that herb pre-assembly, generates a NON-null prescription with no
errors — refuting "prescription = null regardless of other flags". -/
theorem pregnancy_intention_not_always_null :
    (generatePrescription now₀ reqC3ce).map (fun res => (res.prescription.isSome, res.errors)) =
      some (true, []) := by rfl

/-- C3 (amended): if the goal is valid, no clinical hard stop fires, the
budget tier resolves, pregnancy intention is YES and a pregnancy-unsafe
herb-class supplement actually reaches the assembled (dosed) stack, then the
prescription is null and the single error is the safety-violation message,
with that supplement hard-blocked as CRITICAL for the pregnancy reason. -/
theorem pregnancy_dosed_herb_blocks_generation (now : String)
    (request : PrescriptionGenerationRequest)
    (sg : SelectedGoal) (cfg : TierConfig) (s : SupplementStack)
    (hsg : selectGoal request.input.goal = some sg)
    (hhs : (checkHardStopFlags request.input.clinicalFlags).isHardStop = false)
    (hcfg : BUDGET_TIER_DEFINITIONS request.input.budgetTier = some cfg)
    (hpreg : request.input.demographics.pregnancyIntention = some "YES")
    (hs : s ∈ pipelineDosed request cfg)
    (hname : s.supplementName ∈ unsafeInPregnancy) :
    ((generatePrescription now request).map (fun res => (res.prescription, res.errors))) =
      some (none, ["Safety violations: " ++ joinSep "; "
        ((pipelineSafety request cfg).blockedSupplements.map
          (fun b => b.supplementName ++ ": " ++ b.reason))]) ∧
    (⟨.HARD_BLOCK, s.supplementName, "Contraindicated in pregnancy or pregnancy planning",
      .CRITICAL, "Do not use during pregnancy. Consult OB/GYN."⟩ : SafetyIssue) ∈
      (pipelineSafety request cfg).blockedSupplements := by
  have hmem : (⟨.HARD_BLOCK, s.supplementName,
      "Contraindicated in pregnancy or pregnancy planning", .CRITICAL,
      "Do not use during pregnancy. Consult OB/GYN."⟩ : SafetyIssue) ∈
      (pipelineSafety request cfg).blockedSupplements := by
    unfold pipelineSafety performSafetyCheck
    exact pregnancy_blocked_mem _ _ (Or.inl hpreg) _ s hs hname
  have hnn : (pipelineSafety request cfg).blockedSupplements ≠ [] :=
    fun hnil => by rw [hnil] at hmem; cases hmem
  have hsafeF : (pipelineSafety request cfg).isSafeToGenerate = false := by
    cases hbool : (pipelineSafety request cfg).isSafeToGenerate
    · rfl
    · exfalso
      apply hnn
      unfold pipelineSafety at hbool ⊢
      exact (isSafe_iff_blocked_nil _).mp hbool
  obtain ⟨w, hgen⟩ := gen_unsafe_branch now request sg cfg hsg hhs hcfg hsafeF
  refine ⟨?_, hmem⟩
  rw [hgen]
  rfl

/-- Catalog row for Ashwagandha (herb class, id sup_006). -/
def ashwaEntry : SupplementDosageData :=
  { id := "sup_006", name := "Ashwagandha (Withanolides 5%)", doseRangeMin := 300,
    doseRangeMax := 600, doseRangeTypical := 450, doseUnit := "mg",
    genderModifiers := [], ageModifiers := [], useCasePriority := 80 }

/-- Request with pregnancy intention YES whose herb-class core supplement
Ashwagandha survives to the dosed stack. -/
def reqC3w : PrescriptionGenerationRequest :=
  { input := { demographics := demoPregYes, goal := "STRESS_SLEEP",
               budgetTier := "ESSENTIAL" }
    protocolData := ⟨"prot_002", "Stress & Sleep", "STRESS_SLEEP", ["sup_006"], []⟩
    supplementData := [ashwaEntry] }

/-- The dosed Ashwagandha entry of reqC3w. -/
def ashwaDosedEntry : SupplementStack :=
  (pipelineDosed reqC3w cfgEssential).headD ⟨"", "", 0, "", "", "", ""⟩

/-- C3 witness: on the Ashwagandha request the amended claim applies and the
generation is aborted with the pregnancy hard block. -/
theorem pregnancy_dosed_herb_blocks_generation_witness :
    ((generatePrescription now₀ reqC3w).map (fun res => (res.prescription, res.errors))) =
      some (none, ["Safety violations: " ++ joinSep "; "
        ((pipelineSafety reqC3w cfgEssential).blockedSupplements.map
          (fun b => b.supplementName ++ ": " ++ b.reason))]) ∧
    (⟨.HARD_BLOCK, ashwaDosedEntry.supplementName,
      "Contraindicated in pregnancy or pregnancy planning",
      .CRITICAL, "Do not use during pregnancy. Consult OB/GYN."⟩ : SafetyIssue) ∈
      (pipelineSafety reqC3w cfgEssential).blockedSupplements :=
  pregnancy_dosed_herb_blocks_generation now₀ reqC3w
    ⟨"STRESS_SLEEP", "prot_002", "Stress & Sleep"⟩ cfgEssential ashwaDosedEntry
    rfl rfl rfl rfl (List.Mem.head _) (List.Mem.head _)

/-- Catalog row for Omega-3 Fish Oil (id sup_003). -/
def omega3Entry : SupplementDosageData :=
  { id := "sup_003", name := "Omega-3 Fish Oil", doseRangeMin := 1000,
    doseRangeMax := 3000, doseRangeTypical := 2000, doseUnit := "mg",
    genderModifiers := [], ageModifiers := [], useCasePriority := 85 }

/-- Catalog row for Turmeric (id sup_010). -/
def turmericEntry : SupplementDosageData :=
  { id := "sup_010", name := "Turmeric (95% Curcuminoids)", doseRangeMin := 500,
    doseRangeMax := 1500, doseRangeTypical := 1000, doseUnit := "mg",
    genderModifiers := [], ageModifiers := [], useCasePriority := 65 }

/-- Request with medications = [warfarin] and a goal whose protocol core set
contains Omega-3 Fish Oil and Turmeric. -/
def reqC4 : PrescriptionGenerationRequest :=
  { input := { demographics := demoMale40, goal := "LONGEVITY",
               budgetTier := "ESSENTIAL",
               clinicalFlags := some ⟨["warfarin"], [], none, none⟩ }
    protocolData := ⟨"prot_003", "Longevity & Prevention", "LONGEVITY",
      ["sup_003", "sup_010"], []⟩
    supplementData := [omega3Entry, turmericEntry] }

/-- The anticoagulant hard-stop message. -/
def anticoagMsg : String :=
  "HARD STOP: Anticoagulant use requires medical supervision for supplementation."

/-- C4 counterexample: with medications = [warfarin] the pipeline aborts at
the pre-assembly hard stop, so the returned result carries only the
anticoagulant hard-stop error; Omega-3 and Turmeric never end in a safety
check's blockedSupplements because the safety check is never reached, and no
safety issue of the result mentions either supplement. -/
theorem warfarin_aborts_before_safety_check :
    generatePrescription now₀ reqC4 =
      some ⟨none, [anticoagMsg], [], ⟨false, [anticoagMsg]⟩⟩ ∧
    (generatePrescription now₀ reqC4).map (fun res => res.safety.issues.any
      (fun i => strIncludes i "Omega-3" || strIncludes i "Turmeric")) = some false := by
  constructor
  · rfl
  · rfl

/-- Safety-engine input: a stack holding Omega-3 and Turmeric checked against
medications = [warfarin]. -/
def c4SafetyInput : SafetyCheckInput :=
  { supplements :=
      [⟨"sup_003", "Omega-3 Fish Oil", 0, "mg", "", "", ""⟩,
       ⟨"sup_010", "Turmeric (95% Curcuminoids)", 0, "mg", "", "", ""⟩]
    demographics := ⟨45, "FEMALE", none⟩
    clinicalFlags := some ⟨["warfarin"], [], none, none⟩ }

/-- C4 (amended): a warfarin medication triggers the pre-assembly
anticoagulant hard stop, so generatePrescription returns prescription = null
with only the hard-stop error for every valid goal (given no pregnancy
condition, which is checked first); the post-assembly safety check is never
reached. The safety engine itself, applied directly to an assembled stack
holding Omega-3 Fish Oil and Turmeric with a warfarin medication, does put
exactly those two supplements in blockedSupplements with severity CRITICAL
and action HARD_BLOCK. -/
theorem warfarin_hard_stop_and_safety_block :
    (∀ (now : String) (request : PrescriptionGenerationRequest) (flags : ClinicalFlags),
      request.input.clinicalFlags = some flags →
      "warfarin" ∈ flags.currentMedications →
      flags.medicalConditions.any (fun c => strIncludes (lowerStr c) "pregnant") = false →
      request.input.goal ∈ goalTypeValues →
      generatePrescription now request =
        some ⟨none, [anticoagMsg], [], ⟨false, [anticoagMsg]⟩⟩) ∧
    (performSafetyCheck c4SafetyInput).blockedSupplements =
      [⟨.HARD_BLOCK, "Omega-3 Fish Oil",
        "May increase bleeding risk with anticoagulants", .CRITICAL,
        "Avoid or require INR monitoring by physician"⟩,
       ⟨.HARD_BLOCK, "Turmeric (95% Curcuminoids)",
        "May increase bleeding risk with anticoagulants", .CRITICAL,
        "Avoid or require INR monitoring by physician"⟩] := by
  constructor
  · intro now request flags hflags hwar hnopreg hgoal
    have hsome : (selectGoal request.input.goal).isSome = true := by
      simp only [goalTypeValues, List.mem_cons, List.not_mem_nil, or_false] at hgoal
      rcases hgoal with h | h | h | h | h | h | h | h <;> rw [h] <;> rfl
    obtain ⟨sg, hsg⟩ := Option.isSome_iff_exists.mp hsome
    have hwar2 : (List.map lowerStr flags.currentMedications).any
        (fun m => strIncludes m "warfarin" || strIncludes m "coumadin" ||
          strIncludes m "anticoagulant") = true :=
      List.any_eq_true.mpr ⟨lowerStr "warfarin",
        List.mem_map_of_mem lowerStr hwar, by decide⟩
    have hstop : checkHardStopFlags request.input.clinicalFlags =
        ⟨true, "Anticoagulant use requires medical supervision for supplementation."⟩ := by
      rw [hflags]
      dsimp only [checkHardStopFlags]
      simp [hnopreg, hwar2]
    unfold generatePrescription
    simp only [hsg, hstop, if_true]
    rfl
  · rfl

/-- C4 witness: the amended claim applied to the concrete warfarin request. -/
theorem warfarin_hard_stop_and_safety_block_witness :
    generatePrescription now₀ reqC4 =
      some ⟨none, [anticoagMsg], [], ⟨false, [anticoagMsg]⟩⟩ :=
  (warfarin_hard_stop_and_safety_block).1 now₀ reqC4 ⟨["warfarin"], [], none, none⟩
    rfl (List.Mem.head _) (by decide) (by decide)

/-- C5: whenever the budget tier resolves and the catalog dose range is an
actual range (min ≤ max), the personalized dose satisfies
minimumEffectiveDose ≤ optimalDose ≤ safeUpperLimit after the one-decimal
rounding; the composite multiplier is clamped into [0.7, 1.5] and the
optimal dose is the rounded clamp of typical×multiplier into
[min×multiplier, max×multiplier]. -/
theorem dose_clamping (supplement : SupplementDosageData)
    (demographics : DemographicData) (symptomsRating : ℚ) (budgetTier : String)
    (budgetMod m : ℚ) (res : DoseResult)
    (hbm : getBudgetDoseModifier budgetTier = some budgetMod)
    (hres : calculatePersonalizedDose supplement demographics symptomsRating budgetTier = some res)
    (hm : m = computeCompositeModifier supplement demographics symptomsRating budgetMod)
    (hrange : supplement.doseRangeMin ≤ supplement.doseRangeMax) :
    (7/10 ≤ m ∧ m ≤ 3/2) ∧
    res.minimumEffectiveDose ≤ res.optimalDose ∧
    res.optimalDose ≤ res.safeUpperLimit ∧
    res.optimalDose = round1 (max (supplement.doseRangeMin * m)
      (min (supplement.doseRangeTypical * m) (supplement.doseRangeMax * m))) := by
  unfold calculatePersonalizedDose at hres
  rw [hbm] at hres
  simp only [Option.map_some'] at hres
  have hres2 : res = calcDoseCore supplement demographics symptomsRating budgetMod := by
    injection hres with h2
    exact h2.symm
  subst hres2
  subst hm
  have hmbounds : 7/10 ≤ computeCompositeModifier supplement demographics symptomsRating budgetMod ∧
      computeCompositeModifier supplement demographics symptomsRating budgetMod ≤ 3/2 := by
    unfold computeCompositeModifier
    constructor
    · exact le_min (le_max_right _ _) (by norm_num)
    · exact min_le_right _ _
  have hmpos : (0 : ℚ) ≤ computeCompositeModifier supplement demographics symptomsRating budgetMod :=
    le_trans (by norm_num) hmbounds.1
  have hminmax : supplement.doseRangeMin *
        computeCompositeModifier supplement demographics symptomsRating budgetMod ≤
      supplement.doseRangeMax *
        computeCompositeModifier supplement demographics symptomsRating budgetMod :=
    mul_le_mul_of_nonneg_right hrange hmpos
  refine ⟨hmbounds, ?_, ?_, ?_⟩
  · exact round1_mono (le_max_left _ _)
  · exact round1_mono (max_le hminmax (min_le_right _ _))
  · rfl

/-- C5 witness: the L-Theanine dose at tier ESSENTIAL. -/
theorem dose_clamping_witness :
    (7/10 ≤ computeCompositeModifier theanineEntry demoMale40 5 (8/10) ∧
     computeCompositeModifier theanineEntry demoMale40 5 (8/10) ≤ 3/2) ∧
    ((calculatePersonalizedDose theanineEntry demoMale40 5 "ESSENTIAL").getD
      ⟨0, 0, 0, "", "", ""⟩).minimumEffectiveDose ≤
      ((calculatePersonalizedDose theanineEntry demoMale40 5 "ESSENTIAL").getD
        ⟨0, 0, 0, "", "", ""⟩).optimalDose ∧
    ((calculatePersonalizedDose theanineEntry demoMale40 5 "ESSENTIAL").getD
      ⟨0, 0, 0, "", "", ""⟩).optimalDose ≤
      ((calculatePersonalizedDose theanineEntry demoMale40 5 "ESSENTIAL").getD
        ⟨0, 0, 0, "", "", ""⟩).safeUpperLimit ∧
    ((calculatePersonalizedDose theanineEntry demoMale40 5 "ESSENTIAL").getD
      ⟨0, 0, 0, "", "", ""⟩).optimalDose = round1
        (max (theanineEntry.doseRangeMin * computeCompositeModifier theanineEntry demoMale40 5 (8/10))
          (min (theanineEntry.doseRangeTypical * computeCompositeModifier theanineEntry demoMale40 5 (8/10))
            (theanineEntry.doseRangeMax * computeCompositeModifier theanineEntry demoMale40 5 (8/10)))) :=
  dose_clamping theanineEntry demoMale40 5 "ESSENTIAL" (8/10)
    (computeCompositeModifier theanineEntry demoMale40 5 (8/10))
    ((calculatePersonalizedDose theanineEntry demoMale40 5 "ESSENTIAL").getD ⟨0, 0, 0, "", "", ""⟩)
    rfl rfl rfl (by norm_num [theanineEntry])

/-- C6 counterexample: at tier ESSENTIAL (capacity 5) with no core items and
six optional items, the sixth optional item is dropped and removedSupplements
stays empty — the overflowed optional item leaves no trace; moreover there is
no COMPREHENSIVE tier in the budget definitions (the capacity-8 tier is
named GOOD). -/
theorem optional_overflow_not_recorded :
    adjustProtocolByBudget [] ["o1", "o2", "o3", "o4", "o5", "o6"] "ESSENTIAL" =
      some ⟨[], ["o1", "o2", "o3", "o4", "o5"], []⟩ ∧
    BUDGET_TIER_DEFINITIONS "COMPREHENSIVE" = none := by
  exact ⟨rfl, rfl⟩

/-- C6 (amended): the tier capacities are 5 (ESSENTIAL), 8 (GOOD) and
12 (PREMIUM); adjustProtocolByBudget keeps the core prefix that fits the
capacity, fills the remaining capacity with the optional prefix, and records
exactly the core items beyond capacity in removedSupplements — optional items
beyond the remaining capacity are dropped without being recorded. -/
theorem adjustProtocolByBudget_characterization :
    ((BUDGET_TIER_DEFINITIONS "ESSENTIAL").map (·.maxSupplements) = some 5 ∧
     (BUDGET_TIER_DEFINITIONS "GOOD").map (·.maxSupplements) = some 8 ∧
     (BUDGET_TIER_DEFINITIONS "PREMIUM").map (·.maxSupplements) = some 12) ∧
    ∀ (core optional : List String) (tier : String) (cfg : TierConfig),
      BUDGET_TIER_DEFINITIONS tier = some cfg →
      adjustProtocolByBudget core optional tier =
        some ⟨core.take cfg.maxSupplements,
              optional.take (cfg.maxSupplements - core.length),
              core.drop cfg.maxSupplements⟩ := by
  refine ⟨⟨rfl, rfl, rfl⟩, ?_⟩
  intro core optional tier cfg hcfg
  unfold adjustProtocolByBudget
  rw [hcfg]
  simp only [Option.map_some', Option.some.injEq]
  unfold adjustProtocolByBudgetCfg
  simp only [List.length_take, BudgetAdjustment.mk.injEq]
  refine ⟨trivial, ?_, ?_⟩
  · have h2 : cfg.maxSupplements - min cfg.maxSupplements core.length =
        cfg.maxSupplements - core.length := by omega
    rw [h2]
  · by_cases h : core.length ≤ cfg.maxSupplements
    · rw [if_neg, List.drop_eq_nil_of_le h]
      omega
    · rw [if_pos]
      · have h3 : min cfg.maxSupplements core.length = cfg.maxSupplements := by omega
        rw [h3]
      · omega

/-- C6 witness: the characterization applied at tier ESSENTIAL with six core
items and one optional item. -/
theorem adjustProtocolByBudget_characterization_witness :
    adjustProtocolByBudget ["c1", "c2", "c3", "c4", "c5", "c6"] ["o1"] "ESSENTIAL" =
      some ⟨["c1", "c2", "c3", "c4", "c5", "c6"].take cfgEssential.maxSupplements,
            ["o1"].take (cfgEssential.maxSupplements - ["c1", "c2", "c3", "c4", "c5", "c6"].length),
            ["c1", "c2", "c3", "c4", "c5", "c6"].drop cfgEssential.maxSupplements⟩ :=
  (adjustProtocolByBudget_characterization).2
    ["c1", "c2", "c3", "c4", "c5", "c6"] ["o1"] "ESSENTIAL" cfgEssential rfl

/-- Association lookup only returns stored pairs. -/
theorem alookup_mem {l : List (String × ℚ)} {k : String} {v : ℚ}
    (h : alookup l k = some v) : (k, v) ∈ l := by
  unfold alookup at h
  cases hf : l.find? (fun p => p.1 == k) with
  | none => rw [hf] at h; cases h
  | some p =>
    rw [hf] at h
    simp only [Option.map_some', Option.some.injEq] at h
    have hpred := List.find?_some hf
    have hmem := List.mem_of_find?_eq_some hf
    have hk : p.1 = k := by simpa using hpred
    have : p = (k, v) := by
      cases p
      simp only [Prod.mk.injEq]
      exact ⟨hk, h⟩
    rw [← this]
    exact hmem

/-- All stored goal-alignment values lie in [1/2, 1]. -/
theorem goalAlignments_vals_bounds :
    ∀ p ∈ goalAlignments, ∀ e ∈ p.2, (1/2 : ℚ) ≤ e.2 ∧ e.2 ≤ 1 := by
  intro p hp
  unfold goalAlignments at hp
  fin_cases hp <;> (intro e he; fin_cases he <;> norm_num)

/-- Goal alignment is between 1/2 and 1. -/
theorem goalAlignment_bounds (s : SupplementScoringInput) (goal : String) :
    1/2 ≤ calculateGoalAlignment s goal ∧ calculateGoalAlignment s goal ≤ 1 := by
  unfold calculateGoalAlignment
  cases hf : goalAlignments.find? (fun p => p.1 == goal) with
  | none => simp only [hf, Option.map_none', Option.none_bind]; norm_num
  | some p =>
    cases ha : alookup p.2 s.name with
    | none => simp only [hf, Option.map_some', Option.some_bind, ha]; norm_num
    | some v =>
      have hmem := List.mem_of_find?_eq_some hf
      have hvb := goalAlignments_vals_bounds p hmem (s.name, v) (alookup_mem ha)
      simpa [hf, ha] using hvb


/-- Clipped value bounds: min x 1 stays in [0, 1] for non-negative x. -/
theorem min_one_bounds {x : ℚ} (h0 : 0 ≤ x) : 0 ≤ min x 1 ∧ min x 1 ≤ 1 :=
  ⟨le_min h0 (by norm_num), min_le_right _ _⟩

/-- Blended score bounds: averaging a [0, 1] score with a clipped modifier
stays in [0, 1]. -/
theorem blend_bounds {s w : ℚ} (h0 : 0 ≤ s) (h1 : s ≤ 1) (hw : 0 ≤ w) :
    0 ≤ (s + min w 1) / 2 ∧ (s + min w 1) / 2 ≤ 1 := by
  have hm := min_one_bounds hw
  constructor <;> [linarith [hm.1]; linarith [hm.2]]

/-- Demographic fit is between 0 and 1 when the catalog modifiers are
non-negative. -/
theorem demographicFit_bounds (s : SupplementScoringInput) (d : DemographicData)
    (hg : ∀ e ∈ s.genderModifiers, 0 ≤ e.2)
    (ha : ∀ e ∈ s.ageModifiers, 0 ≤ e.2) :
    0 ≤ calculateDemographicFit s d ∧ calculateDemographicFit s d ≤ 1 := by
  unfold calculateDemographicFit
  have main : ∀ s₁ : ℚ, 0 ≤ s₁ → s₁ ≤ 1 →
      0 ≤ min (match alookup s.ageModifiers
          (if d.age < 30 then "18-30" else if d.age ≥ 50 then "50+" else "30-50") with
        | some v => if v = 0 then s₁ else (s₁ + min v 1) / 2
        | none => s₁) 1 ∧
      min (match alookup s.ageModifiers
          (if d.age < 30 then "18-30" else if d.age ≥ 50 then "50+" else "30-50") with
        | some v => if v = 0 then s₁ else (s₁ + min v 1) / 2
        | none => s₁) 1 ≤ 1 := by
    intro s₁ h0 h1
    cases h2 : alookup s.ageModifiers
        (if d.age < 30 then "18-30" else if d.age ≥ 50 then "50+" else "30-50") with
    | none => exact min_one_bounds h0
    | some w =>
      have hw : 0 ≤ w := ha _ (alookup_mem h2)
      by_cases hw0 : w = 0
      · simp only [if_pos hw0]
        exact min_one_bounds h0
      · simp only [if_neg hw0]
        exact min_one_bounds (blend_bounds h0 h1 hw).1
  cases h1 : alookup s.genderModifiers (lowerStr d.gender) with
  | none =>
    simp only [h1]
    exact main _ (by norm_num) (by norm_num)
  | some v =>
    have hv : 0 ≤ v := hg _ (alookup_mem h1)
    simp only [h1]
    by_cases hv0 : v = 0
    · simp only [if_pos hv0]
      exact main _ (by norm_num) (by norm_num)
    · simp only [if_neg hv0]
      by_cases hv1 : v > 1
      · simp only [if_pos hv1]
        exact main _ (min_one_bounds hv).1 (min_one_bounds hv).2
      · simp only [if_neg hv1]
        exact main _ hv (le_of_not_lt hv1)

/-- Evidence score is between 0 and 1. -/
theorem evidenceScore_bounds (evidenceLevel : String) :
    0 ≤ calculateEvidenceScore evidenceLevel ∧ calculateEvidenceScore evidenceLevel ≤ 1 := by
  unfold calculateEvidenceScore
  split <;> [norm_num; split <;> [norm_num; split <;> norm_num]]

/-- Training alignment is between 0 and 1. -/
theorem trainingAlignment_bounds (s : SupplementScoringInput) (tf : Option String) :
    0 ≤ calculateTrainingAlignment s tf ∧ calculateTrainingAlignment s tf ≤ 1 := by
  unfold calculateTrainingAlignment
  dsimp only
  repeat' split
  all_goals norm_num

/-- Age appropriateness is between 0 and 1. -/
theorem ageAppropiateness_bounds (s : SupplementScoringInput) (age : ℚ) :
    0 ≤ calculateAgeAppropiateness s age ∧ calculateAgeAppropiateness s age ≤ 1 := by
  unfold calculateAgeAppropiateness
  split
  · split <;> norm_num
  · split
    · split <;> norm_num
    · split
      · split <;> norm_num
      · split
        · split <;> norm_num
        · split
          · split <;> [norm_num; split <;> norm_num]
          · norm_num

/-- C8: the six default scoring weights sum to exactly 1, and for every
supplement with non-negative catalog modifiers and a priority in [0, 100],
every demographics record and every goal, the score produced with the
default weights lies in [0, 100]. -/
theorem default_weights_sum_and_score_range :
    (DEFAULT_WEIGHTS.goalAlignment + DEFAULT_WEIGHTS.demographic +
     DEFAULT_WEIGHTS.evidence + DEFAULT_WEIGHTS.priority +
     DEFAULT_WEIGHTS.training + DEFAULT_WEIGHTS.age = 1) ∧
    ∀ (s : SupplementScoringInput) (d : DemographicData) (goal : String),
      (∀ e ∈ s.genderModifiers, 0 ≤ e.2) →
      (∀ e ∈ s.ageModifiers, 0 ≤ e.2) →
      0 ≤ s.useCasePriority → s.useCasePriority ≤ 100 →
      0 ≤ (scoreSupplement s d goal DEFAULT_WEIGHTS).score ∧
      (scoreSupplement s d goal DEFAULT_WEIGHTS).score ≤ 100 := by
  constructor
  · norm_num [DEFAULT_WEIGHTS]
  · intro s d goal hg ha hp0 hp100
    have hgo := goalAlignment_bounds s goal
    have hdm := demographicFit_bounds s d hg ha
    have hev := evidenceScore_bounds s.evidenceLevel
    have htr := trainingAlignment_bounds s d.trainingFrequency
    have hag := ageAppropiateness_bounds s d.age
    have hpr : 0 ≤ s.useCasePriority / 100 ∧ s.useCasePriority / 100 ≤ 1 := by
      constructor <;> linarith
    unfold scoreSupplement
    simp only [DEFAULT_WEIGHTS]
    set total := calculateGoalAlignment s goal * (3/10) +
      calculateDemographicFit s d * (25/100) +
      calculateEvidenceScore s.evidenceLevel * (2/10) +
      s.useCasePriority / 100 * (1/10) +
      calculateTrainingAlignment s d.trainingFrequency * (1/10) +
      calculateAgeAppropiateness s d.age * (5/100) with htotal
    have ht0 : 0 ≤ total := by
      rw [htotal]
      have := hgo.1
      nlinarith [hgo.1, hdm.1, hev.1, hpr.1, htr.1, hag.1]
    have ht1 : total ≤ 1 := by
      rw [htotal]
      nlinarith [hgo.2, hdm.2, hev.2, hpr.2, htr.2, hag.2,
        hgo.1, hdm.1, hev.1, hpr.1, htr.1, hag.1]
    constructor
    · show (0 : ℤ) ≤ jsRound (total * 100)
      unfold jsRound
      have : (0 : ℚ) ≤ total * 100 + 1/2 := by linarith
      exact Int.le_floor.mpr (by push_cast; linarith)
    · show jsRound (total * 100) ≤ 100
      have hlt : jsRound (total * 100) < 101 := by
        unfold jsRound
        exact Int.floor_lt.mpr (by push_cast; linarith)
      omega

/-- C8 witness: the weight sum and the score range at a concrete supplement,
demographics and goal. -/
theorem default_weights_sum_and_score_range_witness :
    (DEFAULT_WEIGHTS.goalAlignment + DEFAULT_WEIGHTS.demographic +
     DEFAULT_WEIGHTS.evidence + DEFAULT_WEIGHTS.priority +
     DEFAULT_WEIGHTS.training + DEFAULT_WEIGHTS.age = 1) ∧
    (0 ≤ (scoreSupplement (scoringInputOf theanineEntry) demoMale40
        "STRESS_SLEEP" DEFAULT_WEIGHTS).score ∧
     (scoreSupplement (scoringInputOf theanineEntry) demoMale40
        "STRESS_SLEEP" DEFAULT_WEIGHTS).score ≤ 100) :=
  ⟨(default_weights_sum_and_score_range).1,
   (default_weights_sum_and_score_range).2 (scoringInputOf theanineEntry) demoMale40
     "STRESS_SLEEP"
     (by simp [scoringInputOf, theanineEntry])
     (by simp [scoringInputOf, theanineEntry])
     (by norm_num [scoringInputOf, theanineEntry])
     (by norm_num [scoringInputOf, theanineEntry])⟩

/-- Erase the timestamp of a prescription. -/
def scrubPres (p : PrescriptionOutput) : PrescriptionOutput :=
  { p with summary := { p.summary with generatedAt := "" } }

/-- Erase the timestamp of a generation result. -/
def scrubRes (res : GenerationResult) : GenerationResult :=
  { res with prescription := Option.map scrubPres res.prescription }

/-- Erase the generation timestamp from an optional generation result. -/
def scrubTimestamp (r : Option GenerationResult) : Option GenerationResult :=
  Option.map scrubRes r

/-- C9: generatePrescription is deterministic up to the generation timestamp:
two invocations on the same request, at different wall-clock instants, agree
on every field once summary.generatedAt is erased — no other part of the
output depends on the clock (the embedding has no other source of
nondeterminism at all). -/
theorem generation_deterministic_up_to_timestamp (t₁ t₂ : String)
    (request : PrescriptionGenerationRequest) :
    scrubTimestamp (generatePrescription t₁ request) =
      scrubTimestamp (generatePrescription t₂ request) := by
  unfold generatePrescription
  cases hg : selectGoal request.input.goal with
  | none => rfl
  | some sg =>
    by_cases hhs : (checkHardStopFlags request.input.clinicalFlags).isHardStop = true
    · simp only [hhs, if_true]
    · simp only [hhs, Bool.false_eq_true, if_false]
      cases hcfg : BUDGET_TIER_DEFINITIONS request.input.budgetTier with
      | none => rfl
      | some cfg =>
        by_cases hsafe : (pipelineSafety request cfg).isSafeToGenerate = true
        · simp only [hsafe, Bool.not_true, Bool.false_eq_true, if_false]
          rfl
        · simp only [Bool.not_eq_true] at hsafe
          simp only [hsafe, Bool.not_false, if_true]

/-- CountP of a filtered list as a combined countP. -/
theorem countP_filter_both {α : Type} (p q : α → Bool) :
    ∀ l : List α, (l.filter q).countP p = l.countP (fun a => p a && q a) := by
  intro l
  induction l with
  | nil => simp
  | cons x xs ih =>
    by_cases hq : q x = true
    · by_cases hp : p x = true
      · simp [List.filter_cons, hq, List.countP_cons, hp, ih]
      · simp [List.filter_cons, hq, List.countP_cons, hp, ih]
    · simp [List.filter_cons, hq, List.countP_cons, ih]

/-- Stable descending insertion permutes to a cons. -/
theorem insertDesc_perm (x : PriorityScore) :
    ∀ l : List PriorityScore, (insertDesc x l).Perm (x :: l) := by
  intro l
  induction l with
  | nil => simp [insertDesc]
  | cons y ys ih =>
    unfold insertDesc
    by_cases h : x.score ≥ y.score
    · rw [if_pos h]
    · rw [if_neg h]
      exact List.Perm.trans (List.Perm.cons y ih) (List.Perm.swap x y ys)

/-- The ranking sort is a permutation of its input. -/
theorem rank_perm (l : List PriorityScore) : (rankSupplementsByScore l).Perm l := by
  unfold rankSupplementsByScore
  induction l with
  | nil => simp
  | cons x xs ih =>
    show (insertDesc x (List.foldr insertDesc [] xs)).Perm (x :: xs)
    exact List.Perm.trans (insertDesc_perm x _) (List.Perm.cons x ih)

/-- Whether a selected id survives to the dosed stack: its catalog row exists
and the scored name resolves back to a catalog row. -/
def dosablePred (request : PrescriptionGenerationRequest) (supId : String) : Bool :=
  (((request.supplementData.find? (fun s => s.id == supId)).map (fun supplement =>
      scoreSupplement (scoringInputOf supplement) request.input.demographics
        request.input.goal)).map (fun score =>
    (request.supplementData.find? (fun s => s.name == score.supplementName)).isSome)).getD
    false

/-- The dosed-stack length is a countP over the filtered id list, independent
of ordering. -/
theorem dosed_length (request : PrescriptionGenerationRequest) (cfg : TierConfig) :
    (pipelineDosed request cfg).length =
      (pipelineFilteredIds request cfg).countP (dosablePred request) := by
  unfold pipelineDosed
  rw [length_filterMap_countP]
  have h1 : (pipelineRanked request cfg).countP (fun score =>
      ((request.supplementData.find? (fun s => s.name == score.supplementName)).map
        (fun supplement =>
          let dosage := calcDoseCore supplement request.input.demographics
            (effectiveSymptomsRating request.input) cfg.doseMultiplier
          ({ supplementId := supplement.id, supplementName := supplement.name,
             dose := dosage.optimalDose, unit := supplement.doseUnit,
             timing := dosage.timing, doseType := "OPTIMAL",
             reasoning := dosage.reasoning } : SupplementStack))).isSome) =
      (pipelineRanked request cfg).countP (fun score =>
        (request.supplementData.find? (fun s => s.name == score.supplementName)).isSome) := by
    apply List.countP_congr
    intro score _
    simp [Option.isSome_map]
  rw [h1]
  unfold pipelineRanked
  rw [(rank_perm (pipelineScores request cfg)).countP_eq]
  unfold pipelineScores
  rw [countP_filterMap]
  rfl

/-- Ids selected under a smaller capacity are selected under a larger one. -/
theorem selectedIds_subset (request : PrescriptionGenerationRequest)
    (cfg₁ cfg₂ : TierConfig) (hc : cfg₁.maxSupplements ≤ cfg₂.maxSupplements) :
    ∀ a, a ∈ pipelineSelectedIds request cfg₁ → a ∈ pipelineSelectedIds request cfg₂ := by
  intro a hmem
  unfold pipelineSelectedIds adjustProtocolByBudgetCfg at hmem ⊢
  rcases List.mem_append.mp hmem with h | h
  · exact List.mem_append.mpr (Or.inl (mem_take_mono hc h))
  · refine List.mem_append.mpr (Or.inr (mem_take_mono ?_ h))
    simp only [List.length_take]
    omega

/-- The dosed-stack length is monotone in the tier capacity. -/
theorem dosed_count_mono (request : PrescriptionGenerationRequest)
    (cfg₁ cfg₂ : TierConfig) (hc : cfg₁.maxSupplements ≤ cfg₂.maxSupplements) :
    (pipelineDosed request cfg₁).length ≤ (pipelineDosed request cfg₂).length := by
  rw [dosed_length, dosed_length]
  unfold pipelineFilteredIds
  rw [countP_filter_both, countP_filter_both]
  apply countP_mono_nodup_subset
  · exact nodup_dedupFirst _
  · intro a ha
    rw [mem_dedupFirst] at ha ⊢
    rcases List.mem_append.mp ha with h | h
    · exact List.mem_append.mpr (Or.inl (selectedIds_subset request cfg₁ cfg₂ hc a h))
    · exact List.mem_append.mpr (Or.inr h)

/-- On a successful generation the shopping list has one row per dosed
supplement. -/
theorem gen_success_shopping (now : String) (request : PrescriptionGenerationRequest)
    (res : GenerationResult) (p : PrescriptionOutput) (cfg : TierConfig)
    (hgen : generatePrescription now request = some res)
    (hp : res.prescription = some p)
    (hcfg : BUDGET_TIER_DEFINITIONS request.input.budgetTier = some cfg) :
    p.shoppingList.length = (pipelineDosed request cfg).length := by
  unfold generatePrescription at hgen
  split at hgen
  · injection hgen with h2
    subst h2
    simp at hp
  · by_cases hhs : (checkHardStopFlags request.input.clinicalFlags).isHardStop = true
    · simp only [hhs, if_true] at hgen
      injection hgen with h2
      subst h2
      simp at hp
    · simp only [hhs, Bool.false_eq_true, if_false] at hgen
      split at hgen
      · exact absurd hgen (by simp)
      · rename_i cfg' hcfg'
        have hcc : cfg' = cfg := by
          have := hcfg.symm.trans hcfg'
          exact (Option.some.inj this).symm
        subst hcc
        by_cases hsafe : (pipelineSafety request cfg').isSafeToGenerate = true
        · simp only [hsafe, Bool.not_true, Bool.false_eq_true, if_false] at hgen
          injection hgen with h2
          subst h2
          simp only [Option.some.injEq] at hp
          subst hp
          simp
        · simp only [Bool.not_eq_true] at hsafe
          simp only [hsafe, Bool.not_false, if_true] at hgen
          injection hgen with h2
          subst h2
          simp at hp

/-- Replace only the budget tier of a request. -/
def withTier (request : PrescriptionGenerationRequest) (tier : String) :
    PrescriptionGenerationRequest :=
  { request with input := { request.input with budgetTier := tier } }

/-- C7 counterexample: the code has no COMPREHENSIVE tier — on an otherwise
successful request, generatePrescription with budgetTier COMPREHENSIVE
crashes at the budget phase (modelled as none), so there is no output count
for COMPREHENSIVE; the middle capacity-8 tier is named GOOD and does
generate. -/
theorem comprehensive_tier_has_no_output :
    generatePrescription now₀ (withTier reqTheanine "COMPREHENSIVE") = none ∧
    (generatePrescription now₀ (withTier reqTheanine "GOOD")).map
      (fun r => r.prescription.isSome) = some true := ⟨rfl, rfl⟩

/-- Resolved GOOD tier configuration. -/
def cfgGood : TierConfig :=
  (BUDGET_TIER_DEFINITIONS "GOOD").getD ⟨"", "", 0, [], 0, 0⟩

/-- Resolved PREMIUM tier configuration. -/
def cfgPremium : TierConfig :=
  (BUDGET_TIER_DEFINITIONS "PREMIUM").getD ⟨"", "", 0, [], 0, 0⟩

/-- C7 (amended): for a fixed request varied only in the budget tier over the
code's tiers, whenever all three generations succeed with a prescription,
the supplement count of the output (its shopping list, one row per dosed
supplement) is monotone: ESSENTIAL ≤ GOOD ≤ PREMIUM. -/
theorem budget_monotonic_supplement_count (now : String)
    (request : PrescriptionGenerationRequest)
    (r₁ r₂ r₃ : GenerationResult) (p₁ p₂ p₃ : PrescriptionOutput)
    (h₁ : generatePrescription now (withTier request "ESSENTIAL") = some r₁)
    (hp₁ : r₁.prescription = some p₁)
    (h₂ : generatePrescription now (withTier request "GOOD") = some r₂)
    (hp₂ : r₂.prescription = some p₂)
    (h₃ : generatePrescription now (withTier request "PREMIUM") = some r₃)
    (hp₃ : r₃.prescription = some p₃) :
    p₁.shoppingList.length ≤ p₂.shoppingList.length ∧
    p₂.shoppingList.length ≤ p₃.shoppingList.length := by
  have e₁ : p₁.shoppingList.length =
      (pipelineDosed (withTier request "ESSENTIAL") cfgEssential).length :=
    gen_success_shopping now _ r₁ p₁ cfgEssential h₁ hp₁ rfl
  have e₂ : p₂.shoppingList.length =
      (pipelineDosed (withTier request "GOOD") cfgGood).length :=
    gen_success_shopping now _ r₂ p₂ cfgGood h₂ hp₂ rfl
  have e₃ : p₃.shoppingList.length =
      (pipelineDosed (withTier request "PREMIUM") cfgPremium).length :=
    gen_success_shopping now _ r₃ p₃ cfgPremium h₃ hp₃ rfl
  have f₁ : pipelineDosed (withTier request "ESSENTIAL") cfgEssential =
      pipelineDosed request cfgEssential := rfl
  have f₂ : pipelineDosed (withTier request "GOOD") cfgGood =
      pipelineDosed request cfgGood := rfl
  have f₃ : pipelineDosed (withTier request "PREMIUM") cfgPremium =
      pipelineDosed request cfgPremium := rfl
  rw [e₁, e₂, e₃, f₁, f₂, f₃]
  constructor
  · exact dosed_count_mono request cfgEssential cfgGood (by decide)
  · exact dosed_count_mono request cfgGood cfgPremium (by decide)

/-- Empty generation result placeholder. -/
def emptyGenResult : GenerationResult := ⟨none, [], [], ⟨false, []⟩⟩

/-- Empty prescription placeholder. -/
def emptyPres : PrescriptionOutput :=
  ⟨⟨"", [], [], ""⟩, [], none, [], ⟨[], [], [], []⟩, [], [], []⟩

/-- Generation result of the L-Theanine request at a given tier. -/
def tierRes (t : String) : GenerationResult :=
  (generatePrescription now₀ (withTier reqTheanine t)).getD emptyGenResult

/-- Prescription of the L-Theanine request at a given tier. -/
def tierPres (t : String) : PrescriptionOutput :=
  (tierRes t).prescription.getD emptyPres

/-- C7 witness: the monotonicity applied to the concrete L-Theanine request
at the three tiers. -/
theorem budget_monotonic_supplement_count_witness :
    (tierPres "ESSENTIAL").shoppingList.length ≤ (tierPres "GOOD").shoppingList.length ∧
    (tierPres "GOOD").shoppingList.length ≤ (tierPres "PREMIUM").shoppingList.length :=
  budget_monotonic_supplement_count now₀ reqTheanine
    (tierRes "ESSENTIAL") (tierRes "GOOD") (tierRes "PREMIUM")
    (tierPres "ESSENTIAL") (tierPres "GOOD") (tierPres "PREMIUM")
    rfl rfl rfl rfl rfl rfl
